import Mathlib

/-!
Verification of the NCO-to-O*NET crosswalk generator
(`nco_onet_crosswalk.py`): the tiered semantic matcher
`find_semantic_match`, the NCO line extractor, and the crosswalk
assembler with its quality statistics.

Python strings are modelled as `List Char`; Python's `str.lower` /
`str.strip` / `\s` / `\d` are modelled at ASCII granularity, which is
exact on the occupation data the program processes.  A Python
`IndexError` (e.g. `nco_code[0]` on an empty string) is modelled by an
`Option` result of `none`.  Python's `sorted(keys, key=len,
reverse=True)` is a stable sort by descending length; it is modelled by
`List.insertionSort` with the non-strict relation `lenGE`, which is the
same stable sort, hence produces the identical list.
-/

/-- Coerce a string literal to the `List Char` model of Python strings. -/
def str2l (s : String) : List Char := s.data

/-- Python `\s` / default `str.strip` whitespace, at ASCII granularity. -/
def isSpace (c : Char) : Bool :=
  c = ' ' || c = '\t' || c = '\n' || c = '\r' || c = '\x0b' || c = '\x0c'

/-- Python `str.lower`, at ASCII granularity. -/
def pyLower (l : List Char) : List Char := l.map Char.toLower

/-- Python `str.strip()`. -/
def pyStrip (l : List Char) : List Char :=
  ((l.dropWhile isSpace).reverse.dropWhile isSpace).reverse

/-- Python's substring test `needle in hay`. -/
def containsSub : List Char → List Char → Bool
  | hay, needle =>
    if needle.isPrefixOf hay then true
    else
      match hay with
      | [] => false
      | _ :: t => containsSub t needle

/-- Descending-length comparison used by `sorted(keys, key=len, reverse=True)`. -/
def lenGE (a b : List Char) : Prop := b.length ≤ a.length

instance : DecidableRel lenGE := fun a b => Nat.decLe b.length a.length

instance : IsTotal (List Char) lenGE := ⟨fun a b => Nat.le_total b.length a.length⟩

instance : IsTrans (List Char) lenGE := ⟨fun _ _ _ h1 h2 => Nat.le_trans h2 h1⟩

def SEMANTIC_KEYWORDS : List (List Char × List Char × List Char) := [
  (str2l "judge", str2l "23-1023.00", str2l "Judges, Magistrate Judges, and Magistrates"),
  (str2l "justice", str2l "23-1023.00", str2l "Judges, Magistrate Judges, and Magistrates"),
  (str2l "magistrate", str2l "23-1023.00", str2l "Judges, Magistrate Judges, and Magistrates"),
  (str2l "tribunal", str2l "23-1023.00", str2l "Judges, Magistrate Judges, and Magistrates"),
  (str2l "lawyer", str2l "23-1011.00", str2l "Lawyers"),
  (str2l "advocate", str2l "23-1011.00", str2l "Lawyers"),
  (str2l "attorney", str2l "23-1011.00", str2l "Lawyers"),
  (str2l "solicitor", str2l "23-1011.00", str2l "Lawyers"),
  (str2l "barrister", str2l "23-1011.00", str2l "Lawyers"),
  (str2l "paralegal", str2l "23-2011.00", str2l "Paralegals and Legal Assistants"),
  (str2l "elected official", str2l "11-1031.00", str2l "Legislators"),
  (str2l "legislator", str2l "11-1031.00", str2l "Legislators"),
  (str2l "diplomat", str2l "11-1011.00", str2l "Chief Executives"),
  (str2l "administrative official", str2l "11-1011.00", str2l "Chief Executives"),
  (str2l "executive official", str2l "11-1011.00", str2l "Chief Executives"),
  (str2l "government official", str2l "11-1011.00", str2l "Chief Executives"),
  (str2l "chief executive", str2l "11-1011.00", str2l "Chief Executives"),
  (str2l "chairman", str2l "11-1011.00", str2l "Chief Executives"),
  (str2l "registrar", str2l "11-9033.00", str2l "Education Administrators, Postsecondary"),
  (str2l "treasurer", str2l "11-3031.00", str2l "Financial Managers"),
  (str2l "controller", str2l "11-3031.00", str2l "Financial Managers"),
  (str2l "professor", str2l "25-1099.00", str2l "Postsecondary Teachers, All Other"),
  (str2l "lecturer", str2l "25-1099.00", str2l "Postsecondary Teachers, All Other"),
  (str2l "university", str2l "25-1099.00", str2l "Postsecondary Teachers, All Other"),
  (str2l "college teacher", str2l "25-1099.00", str2l "Postsecondary Teachers, All Other"),
  (str2l "principal, college", str2l "11-9033.00", str2l "Education Administrators, Postsecondary"),
  (str2l "principal", str2l "11-9032.00", str2l "Education Administrators, Kindergarten through Secondary"),
  (str2l "headmaster", str2l "11-9032.00", str2l "Education Administrators, Kindergarten through Secondary"),
  (str2l "school inspector", str2l "11-9032.00", str2l "Education Administrators, Kindergarten through Secondary"),
  (str2l "education officer", str2l "11-9032.00", str2l "Education Administrators, Kindergarten through Secondary"),
  (str2l "physician", str2l "29-1216.00", str2l "General Internal Medicine Physicians"),
  (str2l "doctor", str2l "29-1216.00", str2l "General Internal Medicine Physicians"),
  (str2l "surgeon", str2l "29-1248.00", str2l "Surgeons, All Other"),
  (str2l "nursing", str2l "29-1141.00", str2l "Registered Nurses"),
  (str2l "nurse,", str2l "29-1141.00", str2l "Registered Nurses"),
  (str2l "nurses", str2l "29-1141.00", str2l "Registered Nurses"),
  (str2l "dentist", str2l "29-1021.00", str2l "Dentists, General"),
  (str2l "pharmacist", str2l "29-1051.00", str2l "Pharmacists"),
  (str2l "veterinarian", str2l "29-1131.00", str2l "Veterinarians"),
  (str2l "optometrist", str2l "29-1041.00", str2l "Optometrists"),
  (str2l "physiotherapist", str2l "29-1123.00", str2l "Physical Therapists"),
  (str2l "therapist", str2l "29-1125.00", str2l "Recreational Therapists"),
  (str2l "paramedic", str2l "29-2043.00", str2l "Paramedics"),
  (str2l "midwife", str2l "29-9099.01", str2l "Midwives"),
  (str2l "ayurveda", str2l "29-1291.00", str2l "Acupuncturists"),
  (str2l "homeopath", str2l "29-1291.00", str2l "Acupuncturists"),
  (str2l "unani", str2l "29-1291.00", str2l "Acupuncturists"),
  (str2l "biologist", str2l "19-1029.04", str2l "Biologists"),
  (str2l "botanist", str2l "19-1029.04", str2l "Biologists"),
  (str2l "zoologist", str2l "19-1023.00", str2l "Zoologists and Wildlife Biologists"),
  (str2l "mycologist", str2l "19-1029.04", str2l "Biologists"),
  (str2l "algologist", str2l "19-1029.04", str2l "Biologists"),
  (str2l "microbiologist", str2l "19-1022.00", str2l "Microbiologists"),
  (str2l "geneticist", str2l "19-1029.03", str2l "Geneticists"),
  (str2l "ecologist", str2l "19-2041.03", str2l "Industrial Ecologists"),
  (str2l "silviculturist", str2l "19-1029.04", str2l "Biologists"),
  (str2l "pisciculturist", str2l "19-1029.04", str2l "Biologists"),
  (str2l "entomologist", str2l "19-1029.04", str2l "Biologists"),
  (str2l "ornithologist", str2l "19-1023.00", str2l "Zoologists and Wildlife Biologists"),
  (str2l "sericulturist", str2l "19-1029.04", str2l "Biologists"),
  (str2l "horticulturist", str2l "19-1013.00", str2l "Soil and Plant Scientists"),
  (str2l "agronomist", str2l "19-1013.00", str2l "Soil and Plant Scientists"),
  (str2l "physicist", str2l "19-2012.00", str2l "Physicists"),
  (str2l "astronomer", str2l "19-2011.00", str2l "Astronomers"),
  (str2l "chemist", str2l "19-2031.00", str2l "Chemists"),
  (str2l "geologist", str2l "19-2042.00", str2l "Geoscientists, Except Hydrologists and Geographers"),
  (str2l "hydrologist", str2l "19-2043.00", str2l "Hydrologists"),
  (str2l "hydrographer", str2l "19-2042.00", str2l "Geoscientists, Except Hydrologists and Geographers"),
  (str2l "meteorologist", str2l "19-2021.00", str2l "Atmospheric and Space Scientists"),
  (str2l "oceanographer", str2l "19-2042.00", str2l "Geoscientists, Except Hydrologists and Geographers"),
  (str2l "seismologist", str2l "19-2042.00", str2l "Geoscientists, Except Hydrologists and Geographers"),
  (str2l "mathematician", str2l "15-2021.00", str2l "Mathematicians"),
  (str2l "statistician", str2l "15-2041.00", str2l "Statisticians"),
  (str2l "actuary", str2l "15-2011.00", str2l "Actuaries"),
  (str2l "economist", str2l "19-3011.00", str2l "Economists"),
  (str2l "sociologist", str2l "19-3041.00", str2l "Sociologists"),
  (str2l "psychologist", str2l "19-3031.00", str2l "Psychologists, All Other"),
  (str2l "anthropologist", str2l "19-3091.00", str2l "Anthropologists and Archeologists"),
  (str2l "archaeologist", str2l "19-3091.00", str2l "Anthropologists and Archeologists"),
  (str2l "historian", str2l "19-3093.00", str2l "Historians"),
  (str2l "geographer", str2l "19-3092.00", str2l "Geographers"),
  (str2l "political scientist", str2l "19-3094.00", str2l "Political Scientists"),
  (str2l "engineer", str2l "17-2199.00", str2l "Engineers, All Other"),
  (str2l "civil engineer", str2l "17-2051.00", str2l "Civil Engineers"),
  (str2l "mechanical engineer", str2l "17-2141.00", str2l "Mechanical Engineers"),
  (str2l "electrical engineer", str2l "17-2071.00", str2l "Electrical Engineers"),
  (str2l "chemical engineer", str2l "17-2041.00", str2l "Chemical Engineers"),
  (str2l "architect", str2l "17-1011.00", str2l "Architects, Except Landscape and Naval"),
  (str2l "surveyor", str2l "17-1022.00", str2l "Surveyors"),
  (str2l "textile technologist", str2l "17-2199.00", str2l "Engineers, All Other"),
  (str2l "sugar technologist", str2l "19-1012.00", str2l "Food Scientists and Technologists"),
  (str2l "food technologist", str2l "19-1012.00", str2l "Food Scientists and Technologists"),
  (str2l "dairy technologist", str2l "19-1012.00", str2l "Food Scientists and Technologists"),
  (str2l "leather technologist", str2l "17-2199.00", str2l "Engineers, All Other"),
  (str2l "farmer", str2l "11-9013.00", str2l "Farmers, Ranchers, and Other Agricultural Managers"),
  (str2l "cultivator", str2l "45-2092.00", str2l "Farmworkers and Laborers, Crop, Nursery, and Greenhouse"),
  (str2l "grower", str2l "45-2092.00", str2l "Farmworkers and Laborers, Crop, Nursery, and Greenhouse"),
  (str2l "planter", str2l "45-2092.00", str2l "Farmworkers and Laborers, Crop, Nursery, and Greenhouse"),
  (str2l "rubber nursery", str2l "45-2092.00", str2l "Farmworkers and Laborers, Crop, Nursery, and Greenhouse"),
  (str2l "rubber plantation", str2l "45-2092.00", str2l "Farmworkers and Laborers, Crop, Nursery, and Greenhouse"),
  (str2l "rubber tapper", str2l "45-2092.00", str2l "Farmworkers and Laborers, Crop, Nursery, and Greenhouse"),
  (str2l "nursery worker", str2l "45-2092.00", str2l "Farmworkers and Laborers, Crop, Nursery, and Greenhouse"),
  (str2l "nursery manager", str2l "11-9013.00", str2l "Farmers, Ranchers, and Other Agricultural Managers"),
  (str2l "plantation manager", str2l "11-9013.00", str2l "Farmers, Ranchers, and Other Agricultural Managers"),
  (str2l "gardener", str2l "37-3011.00", str2l "Landscaping and Groundskeeping Workers"),
  (str2l "horticulture", str2l "45-2092.00", str2l "Farmworkers and Laborers, Crop, Nursery, and Greenhouse"),
  (str2l "forester", str2l "19-1032.00", str2l "Foresters"),
  (str2l "forest ranger", str2l "19-1032.00", str2l "Foresters"),
  (str2l "pilot", str2l "53-2011.00", str2l "Airline Pilots, Copilots, and Flight Engineers"),
  (str2l "captain", str2l "53-5021.00", str2l "Captains, Mates, and Pilots of Water Vessels"),
  (str2l "driver", str2l "53-3032.00", str2l "Heavy and Tractor-Trailer Truck Drivers"),
  (str2l "station master", str2l "11-1021.00", str2l "General and Operations Managers"),
  (str2l "train", str2l "53-4011.00", str2l "Locomotive Engineers"),
  (str2l "restorer", str2l "25-4013.00", str2l "Museum Technicians and Conservators"),
  (str2l "conservator", str2l "25-4013.00", str2l "Museum Technicians and Conservators"),
  (str2l "curator", str2l "25-4012.00", str2l "Curators"),
  (str2l "librarian", str2l "25-4022.00", str2l "Librarians and Media Collections Specialists"),
  (str2l "archivist", str2l "25-4011.00", str2l "Archivists"),
  (str2l "musician", str2l "27-2042.00", str2l "Musicians and Singers"),
  (str2l "singer", str2l "27-2042.00", str2l "Musicians and Singers"),
  (str2l "actor", str2l "27-2011.00", str2l "Actors"),
  (str2l "dancer", str2l "27-2031.00", str2l "Dancers"),
  (str2l "choreographer", str2l "27-2032.00", str2l "Choreographers"),
  (str2l "artist", str2l "27-1013.00", str2l "Fine Artists, Including Painters, Sculptors, and Illustrators"),
  (str2l "painter", str2l "27-1013.00", str2l "Fine Artists, Including Painters, Sculptors, and Illustrators"),
  (str2l "sculptor", str2l "27-1013.00", str2l "Fine Artists, Including Painters, Sculptors, and Illustrators"),
  (str2l "photographer", str2l "27-4021.00", str2l "Photographers"),
  (str2l "journalist", str2l "27-3023.00", str2l "News Analysts, Reporters, and Journalists"),
  (str2l "reporter", str2l "27-3023.00", str2l "News Analysts, Reporters, and Journalists"),
  (str2l "editor", str2l "27-3041.00", str2l "Editors"),
  (str2l "writer", str2l "27-3043.00", str2l "Writers and Authors"),
  (str2l "author", str2l "27-3043.00", str2l "Writers and Authors"),
  (str2l "instrument maker", str2l "49-9063.00", str2l "Musical Instrument Repairers and Tuners"),
  (str2l "instrument tuner", str2l "49-9063.00", str2l "Musical Instrument Repairers and Tuners"),
  (str2l "organ tuner", str2l "49-9063.00", str2l "Musical Instrument Repairers and Tuners"),
  (str2l "piano tuner", str2l "49-9063.00", str2l "Musical Instrument Repairers and Tuners"),
  (str2l "tabla maker", str2l "49-9063.00", str2l "Musical Instrument Repairers and Tuners"),
  (str2l "sitar maker", str2l "49-9063.00", str2l "Musical Instrument Repairers and Tuners"),
  (str2l "harmonium", str2l "49-9063.00", str2l "Musical Instrument Repairers and Tuners"),
  (str2l "welder", str2l "51-4121.00", str2l "Welders, Cutters, Solderers, and Brazers"),
  (str2l "blacksmith", str2l "51-4199.00", str2l "Metal Workers and Plastic Workers, All Other"),
  (str2l "goldsmith", str2l "51-9071.00", str2l "Jewelers and Precious Stone and Metal Workers"),
  (str2l "silversmith", str2l "51-9071.00", str2l "Jewelers and Precious Stone and Metal Workers"),
  (str2l "jeweller", str2l "51-9071.00", str2l "Jewelers and Precious Stone and Metal Workers"),
  (str2l "potter", str2l "51-9195.05", str2l "Potters, Manufacturing"),
  (str2l "glass blower", str2l "51-9195.04", str2l "Glass Blowers, Molders, Benders, and Finishers"),
  (str2l "baker", str2l "51-3011.00", str2l "Bakers"),
  (str2l "butcher", str2l "51-3021.00", str2l "Butchers and Meat Cutters"),
  (str2l "tailor", str2l "51-6052.00", str2l "Tailors, Dressmakers, and Custom Sewers"),
  (str2l "carpenter", str2l "47-2031.00", str2l "Carpenters"),
  (str2l "mason", str2l "47-2021.00", str2l "Brickmasons and Blockmasons"),
  (str2l "plumber", str2l "47-2152.00", str2l "Plumbers, Pipefitters, and Steamfitters"),
  (str2l "electrician", str2l "47-2111.00", str2l "Electricians"),
  (str2l "plant operator", str2l "51-8099.00", str2l "Plant and System Operators, All Other"),
  (str2l "machine operator", str2l "51-9199.00", str2l "Production Workers, All Other"),
  (str2l "factory", str2l "51-9199.00", str2l "Production Workers, All Other"),
  (str2l "manufacturing", str2l "51-9199.00", str2l "Production Workers, All Other"),
  (str2l "glass plant", str2l "51-9195.04", str2l "Glass Blowers, Molders, Benders, and Finishers"),
  (str2l "ceramic plant", str2l "51-9195.00", str2l "Molders, Shapers, and Casters, Except Metal and Plastic"),
  (str2l "waiter", str2l "35-3031.00", str2l "Waiters and Waitresses"),
  (str2l "cook", str2l "35-2014.00", str2l "Cooks, Restaurant"),
  (str2l "chef", str2l "35-1011.00", str2l "Chefs and Head Cooks"),
  (str2l "barber", str2l "39-5011.00", str2l "Barbers"),
  (str2l "hairdresser", str2l "39-5012.00", str2l "Hairdressers, Hairstylists, and Cosmetologists"),
  (str2l "beautician", str2l "39-5012.00", str2l "Hairdressers, Hairstylists, and Cosmetologists"),
  (str2l "police", str2l "33-3051.00", str2l "Police and Sheriff\x27s Patrol Officers"),
  (str2l "constable", str2l "33-3051.00", str2l "Police and Sheriff\x27s Patrol Officers"),
  (str2l "guard", str2l "33-9032.00", str2l "Security Guards"),
  (str2l "watchman", str2l "33-9032.00", str2l "Security Guards"),
  (str2l "security", str2l "33-9032.00", str2l "Security Guards"),
  (str2l "firefighter", str2l "33-2011.00", str2l "Firefighters"),
  (str2l "fireman", str2l "33-2011.00", str2l "Firefighters"),
  (str2l "porter", str2l "39-6011.00", str2l "Baggage Porters and Bellhops"),
  (str2l "bellhop", str2l "39-6011.00", str2l "Baggage Porters and Bellhops"),
  (str2l "doorkeeper", str2l "39-6011.00", str2l "Baggage Porters and Bellhops"),
  (str2l "concierge", str2l "39-6012.00", str2l "Concierges"),
  (str2l "clerk", str2l "43-9061.00", str2l "Office Clerks, General"),
  (str2l "secretary", str2l "43-6014.00", str2l "Secretaries and Administrative Assistants, Except Legal, Medical, and Executive"),
  (str2l "typist", str2l "43-9022.00", str2l "Word Processors and Typists"),
  (str2l "receptionist", str2l "43-4171.00", str2l "Receptionists and Information Clerks"),
  (str2l "cashier", str2l "41-2011.00", str2l "Cashiers"),
  (str2l "accountant", str2l "13-2011.00", str2l "Accountants and Auditors"),
  (str2l "auditor", str2l "13-2011.00", str2l "Accountants and Auditors"),
  (str2l "miner", str2l "47-5041.00", str2l "Continuous Mining Machine Operators"),
  (str2l "quarry", str2l "47-5041.00", str2l "Continuous Mining Machine Operators"),
  (str2l "driller", str2l "47-5012.00", str2l "Rotary Drill Operators, Oil and Gas"),
  (str2l "concrete", str2l "47-2051.00", str2l "Cement Masons and Concrete Finishers"),
  (str2l "mould", str2l "51-4071.00", str2l "Foundry Mold and Coremakers"),
  (str2l "moulder", str2l "51-4071.00", str2l "Foundry Mold and Coremakers")
]

def NCO_PREFIX_DEFAULTS : List (List Char × List Char × List Char) := [
  (str2l "1111", str2l "11-1031.00", str2l "Legislators"),
  (str2l "1112", str2l "11-1011.00", str2l "Chief Executives"),
  (str2l "1113", str2l "11-1011.00", str2l "Chief Executives"),
  (str2l "1114", str2l "11-1011.00", str2l "Chief Executives"),
  (str2l "1120", str2l "11-1011.00", str2l "Chief Executives"),
  (str2l "1211", str2l "11-3031.00", str2l "Financial Managers"),
  (str2l "1212", str2l "11-3121.00", str2l "Human Resources Managers"),
  (str2l "1213", str2l "11-1021.00", str2l "General and Operations Managers"),
  (str2l "1219", str2l "11-1021.00", str2l "General and Operations Managers"),
  (str2l "1221", str2l "11-2022.00", str2l "Sales Managers"),
  (str2l "1222", str2l "11-2011.00", str2l "Advertising and Promotions Managers"),
  (str2l "1223", str2l "11-9041.00", str2l "Architectural and Engineering Managers"),
  (str2l "1311", str2l "11-9013.00", str2l "Farmers, Ranchers, and Other Agricultural Managers"),
  (str2l "1312", str2l "11-9013.00", str2l "Farmers, Ranchers, and Other Agricultural Managers"),
  (str2l "1321", str2l "11-3051.00", str2l "Industrial Production Managers"),
  (str2l "1322", str2l "11-9041.00", str2l "Architectural and Engineering Managers"),
  (str2l "1323", str2l "11-9021.00", str2l "Construction Managers"),
  (str2l "1324", str2l "11-3071.00", str2l "Transportation, Storage, and Distribution Managers"),
  (str2l "1330", str2l "11-3021.00", str2l "Computer and Information Systems Managers"),
  (str2l "1341", str2l "11-9031.00", str2l "Education and Childcare Administrators, Preschool and Daycare"),
  (str2l "1342", str2l "11-9111.00", str2l "Medical and Health Services Managers"),
  (str2l "1343", str2l "11-9111.00", str2l "Medical and Health Services Managers"),
  (str2l "1344", str2l "11-9151.00", str2l "Social and Community Service Managers"),
  (str2l "1345", str2l "11-9032.00", str2l "Education Administrators, Kindergarten through Secondary"),
  (str2l "1346", str2l "11-3031.00", str2l "Financial Managers"),
  (str2l "1349", str2l "11-1021.00", str2l "General and Operations Managers"),
  (str2l "1411", str2l "11-9081.00", str2l "Lodging Managers"),
  (str2l "1412", str2l "11-9051.00", str2l "Food Service Managers"),
  (str2l "1420", str2l "11-1021.00", str2l "General and Operations Managers"),
  (str2l "1431", str2l "11-9072.00", str2l "Entertainment and Recreation Managers, Except Gambling"),
  (str2l "1439", str2l "11-1021.00", str2l "General and Operations Managers"),
  (str2l "2111", str2l "19-2012.00", str2l "Physicists"),
  (str2l "2112", str2l "19-2021.00", str2l "Atmospheric and Space Scientists"),
  (str2l "2113", str2l "19-2031.00", str2l "Chemists"),
  (str2l "2114", str2l "19-2042.00", str2l "Geoscientists, Except Hydrologists and Geographers"),
  (str2l "2120", str2l "15-2041.00", str2l "Statisticians"),
  (str2l "2131", str2l "19-1029.04", str2l "Biologists"),
  (str2l "2132", str2l "19-1031.00", str2l "Conservation Scientists"),
  (str2l "2133", str2l "19-2041.00", str2l "Environmental Scientists and Specialists, Including Health"),
  (str2l "2141", str2l "17-2112.00", str2l "Industrial Engineers"),
  (str2l "2142", str2l "17-2051.00", str2l "Civil Engineers"),
  (str2l "2143", str2l "17-2081.00", str2l "Environmental Engineers"),
  (str2l "2144", str2l "17-2141.00", str2l "Mechanical Engineers"),
  (str2l "2145", str2l "17-2041.00", str2l "Chemical Engineers"),
  (str2l "2146", str2l "17-2151.00", str2l "Mining and Geological Engineers, Including Mining Safety Engineers"),
  (str2l "2149", str2l "17-2199.00", str2l "Engineers, All Other"),
  (str2l "2151", str2l "17-2071.00", str2l "Electrical Engineers"),
  (str2l "2152", str2l "17-2072.00", str2l "Electronics Engineers, Except Computer"),
  (str2l "2153", str2l "17-2072.00", str2l "Electronics Engineers, Except Computer"),
  (str2l "2161", str2l "17-1011.00", str2l "Architects, Except Landscape and Naval"),
  (str2l "2162", str2l "17-1012.00", str2l "Landscape Architects"),
  (str2l "2163", str2l "27-1021.00", str2l "Commercial and Industrial Designers"),
  (str2l "2164", str2l "19-3051.00", str2l "Urban and Regional Planners"),
  (str2l "2165", str2l "17-1021.00", str2l "Cartographers and Photogrammetrists"),
  (str2l "2166", str2l "27-1024.00", str2l "Graphic Designers"),
  (str2l "2211", str2l "29-1216.00", str2l "General Internal Medicine Physicians"),
  (str2l "2212", str2l "29-1229.00", str2l "Physicians, All Other"),
  (str2l "2221", str2l "29-1141.00", str2l "Registered Nurses"),
  (str2l "2222", str2l "29-9099.01", str2l "Midwives"),
  (str2l "2230", str2l "29-1291.00", str2l "Acupuncturists"),
  (str2l "2240", str2l "29-2041.00", str2l "Emergency Medical Technicians"),
  (str2l "2250", str2l "29-1131.00", str2l "Veterinarians"),
  (str2l "2261", str2l "29-1021.00", str2l "Dentists, General"),
  (str2l "2262", str2l "29-1051.00", str2l "Pharmacists"),
  (str2l "2263", str2l "19-2041.00", str2l "Environmental Scientists and Specialists, Including Health"),
  (str2l "2264", str2l "29-1123.00", str2l "Physical Therapists"),
  (str2l "2265", str2l "29-1031.00", str2l "Dietitians and Nutritionists"),
  (str2l "2266", str2l "29-1181.00", str2l "Audiologists"),
  (str2l "2267", str2l "29-1041.00", str2l "Optometrists"),
  (str2l "2269", str2l "29-1299.00", str2l "Healthcare Diagnosing or Treating Practitioners, All Other"),
  (str2l "2310", str2l "25-1099.00", str2l "Postsecondary Teachers, All Other"),
  (str2l "2320", str2l "25-1194.00", str2l "Career/Technical Education Teachers, Postsecondary"),
  (str2l "2330", str2l "25-2031.00", str2l "Secondary School Teachers, Except Special and Career/Technical Education"),
  (str2l "2341", str2l "25-2021.00", str2l "Elementary School Teachers, Except Special Education"),
  (str2l "2342", str2l "25-2011.00", str2l "Preschool Teachers, Except Special Education"),
  (str2l "2351", str2l "25-9031.00", str2l "Instructional Coordinators"),
  (str2l "2352", str2l "25-2059.00", str2l "Special Education Teachers, All Other"),
  (str2l "2353", str2l "25-3011.00", str2l "Adult Basic Education, Adult Secondary Education, and English as a Second Language Instructors"),
  (str2l "2354", str2l "25-1121.00", str2l "Art, Drama, and Music Teachers, Postsecondary"),
  (str2l "2355", str2l "25-1121.00", str2l "Art, Drama, and Music Teachers, Postsecondary"),
  (str2l "2356", str2l "25-1021.00", str2l "Computer Science Teachers, Postsecondary"),
  (str2l "2359", str2l "25-3099.00", str2l "Teachers and Instructors, All Other"),
  (str2l "2411", str2l "13-2011.00", str2l "Accountants and Auditors"),
  (str2l "2412", str2l "13-2051.00", str2l "Financial and Investment Analysts"),
  (str2l "2413", str2l "13-2051.00", str2l "Financial and Investment Analysts"),
  (str2l "2421", str2l "13-1111.00", str2l "Management Analysts"),
  (str2l "2422", str2l "13-1111.00", str2l "Management Analysts"),
  (str2l "2423", str2l "13-1071.00", str2l "Human Resources Specialists"),
  (str2l "2424", str2l "13-1151.00", str2l "Training and Development Specialists"),
  (str2l "2431", str2l "13-1161.00", str2l "Market Research Analysts and Marketing Specialists"),
  (str2l "2432", str2l "27-3031.00", str2l "Public Relations Specialists"),
  (str2l "2433", str2l "41-4011.00", str2l "Sales Representatives, Wholesale and Manufacturing, Technical and Scientific Products"),
  (str2l "2434", str2l "41-4011.00", str2l "Sales Representatives, Wholesale and Manufacturing, Technical and Scientific Products"),
  (str2l "2511", str2l "15-1211.00", str2l "Computer Systems Analysts"),
  (str2l "2512", str2l "15-1252.00", str2l "Software Developers"),
  (str2l "2513", str2l "15-1254.00", str2l "Web Developers"),
  (str2l "2514", str2l "15-1251.00", str2l "Computer Programmers"),
  (str2l "2519", str2l "15-1299.00", str2l "Computer Occupations, All Other"),
  (str2l "2521", str2l "15-1242.00", str2l "Database Administrators"),
  (str2l "2522", str2l "15-1244.00", str2l "Network and Computer Systems Administrators"),
  (str2l "2523", str2l "15-1241.00", str2l "Computer Network Architects"),
  (str2l "2529", str2l "15-1299.00", str2l "Computer Occupations, All Other"),
  (str2l "2611", str2l "23-1011.00", str2l "Lawyers"),
  (str2l "2612", str2l "23-1023.00", str2l "Judges, Magistrate Judges, and Magistrates"),
  (str2l "2619", str2l "23-1011.00", str2l "Lawyers"),
  (str2l "2621", str2l "25-4011.00", str2l "Archivists"),
  (str2l "2622", str2l "25-4022.00", str2l "Librarians and Media Collections Specialists"),
  (str2l "2631", str2l "19-3011.00", str2l "Economists"),
  (str2l "2632", str2l "19-3041.00", str2l "Sociologists"),
  (str2l "2633", str2l "25-1126.00", str2l "Philosophy and Religion Teachers, Postsecondary"),
  (str2l "2634", str2l "19-3031.00", str2l "Psychologists, All Other"),
  (str2l "2635", str2l "21-1029.00", str2l "Social Workers, All Other"),
  (str2l "2636", str2l "21-2011.00", str2l "Clergy"),
  (str2l "2641", str2l "27-3043.00", str2l "Writers and Authors"),
  (str2l "2642", str2l "27-3023.00", str2l "News Analysts, Reporters, and Journalists"),
  (str2l "2643", str2l "27-3091.00", str2l "Interpreters and Translators"),
  (str2l "2651", str2l "27-1013.00", str2l "Fine Artists, Including Painters, Sculptors, and Illustrators"),
  (str2l "2652", str2l "27-2042.00", str2l "Musicians and Singers"),
  (str2l "2653", str2l "27-2031.00", str2l "Dancers"),
  (str2l "2654", str2l "27-2012.00", str2l "Producers and Directors"),
  (str2l "2655", str2l "27-2011.00", str2l "Actors"),
  (str2l "2656", str2l "27-3011.00", str2l "Broadcast Announcers and Radio Disc Jockeys"),
  (str2l "2659", str2l "27-2099.00", str2l "Entertainers and Performers, Sports and Related Workers, All Other"),
  (str2l "3111", str2l "19-4031.00", str2l "Chemical Technicians"),
  (str2l "3112", str2l "17-3022.00", str2l "Civil Engineering Technologists and Technicians"),
  (str2l "3113", str2l "17-3023.00", str2l "Electrical and Electronic Engineering Technologists and Technicians"),
  (str2l "3114", str2l "17-3023.00", str2l "Electrical and Electronic Engineering Technologists and Technicians"),
  (str2l "3115", str2l "17-3027.00", str2l "Mechanical Engineering Technologists and Technicians"),
  (str2l "3116", str2l "19-4031.00", str2l "Chemical Technicians"),
  (str2l "3117", str2l "19-4041.00", str2l "Geological Technicians, Except Hydrologic Technicians"),
  (str2l "3118", str2l "17-3011.00", str2l "Architectural and Civil Drafters"),
  (str2l "3119", str2l "17-3029.00", str2l "Engineering Technologists and Technicians, Except Drafters, All Other"),
  (str2l "3121", str2l "47-1011.00", str2l "First-Line Supervisors of Construction Trades and Extraction Workers"),
  (str2l "3122", str2l "51-1011.00", str2l "First-Line Supervisors of Production and Operating Workers"),
  (str2l "3123", str2l "47-1011.00", str2l "First-Line Supervisors of Construction Trades and Extraction Workers"),
  (str2l "3131", str2l "51-8013.00", str2l "Power Plant Operators"),
  (str2l "3132", str2l "51-8031.00", str2l "Water and Wastewater Treatment Plant and System Operators"),
  (str2l "3133", str2l "51-8091.00", str2l "Chemical Plant and System Operators"),
  (str2l "3134", str2l "51-8093.00", str2l "Petroleum Pump System Operators, Refinery Operators, and Gaugers"),
  (str2l "3135", str2l "51-4051.00", str2l "Metal-Refining Furnace Operators and Tenders"),
  (str2l "3139", str2l "51-8099.00", str2l "Plant and System Operators, All Other"),
  (str2l "3141", str2l "19-4021.00", str2l "Biological Technicians"),
  (str2l "3142", str2l "19-4012.00", str2l "Agricultural Technicians"),
  (str2l "3143", str2l "19-4071.00", str2l "Forest and Conservation Technicians"),
  (str2l "3151", str2l "53-5031.00", str2l "Ship Engineers"),
  (str2l "3152", str2l "53-5021.00", str2l "Captains, Mates, and Pilots of Water Vessels"),
  (str2l "3153", str2l "53-2011.00", str2l "Airline Pilots, Copilots, and Flight Engineers"),
  (str2l "3154", str2l "53-2021.00", str2l "Air Traffic Controllers"),
  (str2l "3155", str2l "49-3011.00", str2l "Aircraft Mechanics and Service Technicians"),
  (str2l "3211", str2l "29-2034.00", str2l "Radiologic Technologists and Technicians"),
  (str2l "3212", str2l "29-2012.00", str2l "Medical and Clinical Laboratory Technicians"),
  (str2l "3213", str2l "29-2052.00", str2l "Pharmacy Technicians"),
  (str2l "3214", str2l "51-9081.00", str2l "Dental Laboratory Technicians"),
  (str2l "3219", str2l "29-2099.00", str2l "Health Technologists and Technicians, All Other"),
  (str2l "3221", str2l "29-2061.00", str2l "Licensed Practical and Licensed Vocational Nurses"),
  (str2l "3222", str2l "29-9099.01", str2l "Midwives"),
  (str2l "3230", str2l "29-1299.00", str2l "Healthcare Diagnosing or Treating Practitioners, All Other"),
  (str2l "3240", str2l "29-2056.00", str2l "Veterinary Technologists and Technicians"),
  (str2l "3251", str2l "31-9091.00", str2l "Dental Assistants"),
  (str2l "3252", str2l "29-2072.00", str2l "Medical Records Specialists"),
  (str2l "3253", str2l "21-1094.00", str2l "Community Health Workers"),
  (str2l "3254", str2l "29-2081.00", str2l "Opticians, Dispensing"),
  (str2l "3255", str2l "31-2021.00", str2l "Physical Therapist Assistants"),
  (str2l "3256", str2l "31-9092.00", str2l "Medical Assistants"),
  (str2l "3257", str2l "19-4042.00", str2l "Environmental Science and Protection Technicians, Including Health"),
  (str2l "3258", str2l "29-2042.00", str2l "Emergency Medical Technicians"),
  (str2l "3259", str2l "31-9099.00", str2l "Healthcare Support Workers, All Other"),
  (str2l "3311", str2l "41-3031.00", str2l "Securities, Commodities, and Financial Services Sales Agents"),
  (str2l "3312", str2l "13-2072.00", str2l "Loan Officers"),
  (str2l "3313", str2l "43-3031.00", str2l "Bookkeeping, Accounting, and Auditing Clerks"),
  (str2l "3314", str2l "43-9111.00", str2l "Statistical Assistants"),
  (str2l "3315", str2l "13-2023.00", str2l "Appraisers and Assessors of Real Estate"),
  (str2l "3321", str2l "41-3021.00", str2l "Insurance Sales Agents"),
  (str2l "3322", str2l "41-4012.00", str2l "Sales Representatives, Wholesale and Manufacturing, Except Technical and Scientific Products"),
  (str2l "3323", str2l "13-1022.00", str2l "Wholesale and Retail Buyers, Except Farm Products"),
  (str2l "3324", str2l "41-3031.00", str2l "Securities, Commodities, and Financial Services Sales Agents"),
  (str2l "3331", str2l "43-5011.00", str2l "Cargo and Freight Agents"),
  (str2l "3332", str2l "13-1121.00", str2l "Meeting, Convention, and Event Planners"),
  (str2l "3333", str2l "13-1071.00", str2l "Human Resources Specialists"),
  (str2l "3334", str2l "41-9022.00", str2l "Real Estate Sales Agents"),
  (str2l "3339", str2l "13-1199.00", str2l "Business Operations Specialists, All Other"),
  (str2l "3341", str2l "43-1011.00", str2l "First-Line Supervisors of Office and Administrative Support Workers"),
  (str2l "3342", str2l "43-6012.00", str2l "Legal Secretaries and Administrative Assistants"),
  (str2l "3343", str2l "43-6011.00", str2l "Executive Secretaries and Executive Administrative Assistants"),
  (str2l "3344", str2l "43-6013.00", str2l "Medical Secretaries and Administrative Assistants"),
  (str2l "3351", str2l "33-3051.04", str2l "Customs and Border Protection Officers"),
  (str2l "3352", str2l "13-2081.00", str2l "Tax Examiners and Collectors, and Revenue Agents"),
  (str2l "3353", str2l "43-4061.00", str2l "Eligibility Interviewers, Government Programs"),
  (str2l "3354", str2l "43-4031.00", str2l "Court, Municipal, and License Clerks"),
  (str2l "3355", str2l "33-3021.00", str2l "Detectives and Criminal Investigators"),
  (str2l "3359", str2l "13-1041.00", str2l "Compliance Officers"),
  (str2l "3411", str2l "23-2011.00", str2l "Paralegals and Legal Assistants"),
  (str2l "3412", str2l "21-1093.00", str2l "Social and Human Service Assistants"),
  (str2l "3413", str2l "21-2099.00", str2l "Religious Workers, All Other"),
  (str2l "3421", str2l "27-2021.00", str2l "Athletes and Sports Competitors"),
  (str2l "3422", str2l "27-2022.00", str2l "Coaches and Scouts"),
  (str2l "3423", str2l "39-9031.00", str2l "Exercise Trainers and Group Fitness Instructors"),
  (str2l "3431", str2l "27-4021.00", str2l "Photographers"),
  (str2l "3432", str2l "27-1025.00", str2l "Interior Designers"),
  (str2l "3433", str2l "25-4013.00", str2l "Museum Technicians and Conservators"),
  (str2l "3434", str2l "35-1011.00", str2l "Chefs and Head Cooks"),
  (str2l "3435", str2l "27-1019.00", str2l "Artists and Related Workers, All Other"),
  (str2l "3511", str2l "15-1232.00", str2l "Computer User Support Specialists"),
  (str2l "3512", str2l "15-1232.00", str2l "Computer User Support Specialists"),
  (str2l "3513", str2l "15-1231.00", str2l "Computer Network Support Specialists"),
  (str2l "3514", str2l "15-1254.00", str2l "Web Developers"),
  (str2l "3521", str2l "27-4011.00", str2l "Audio and Video Technicians"),
  (str2l "3522", str2l "49-2022.00", str2l "Telecommunications Equipment Installers and Repairers, Except Line Installers"),
  (str2l "4110", str2l "43-9061.00", str2l "Office Clerks, General"),
  (str2l "4120", str2l "43-6014.00", str2l "Secretaries and Administrative Assistants, Except Legal, Medical, and Executive"),
  (str2l "4131", str2l "43-9022.00", str2l "Word Processors and Typists"),
  (str2l "4132", str2l "43-9021.00", str2l "Data Entry Keyers"),
  (str2l "4211", str2l "43-3071.00", str2l "Tellers"),
  (str2l "4212", str2l "43-3041.00", str2l "Gambling Cage Workers"),
  (str2l "4213", str2l "13-2072.00", str2l "Loan Officers"),
  (str2l "4214", str2l "43-3011.00", str2l "Bill and Account Collectors"),
  (str2l "4221", str2l "41-3041.00", str2l "Travel Agents"),
  (str2l "4222", str2l "43-4051.00", str2l "Customer Service Representatives"),
  (str2l "4223", str2l "43-2021.00", str2l "Telephone Operators"),
  (str2l "4224", str2l "43-4081.00", str2l "Hotel, Motel, and Resort Desk Clerks"),
  (str2l "4225", str2l "43-4171.00", str2l "Receptionists and Information Clerks"),
  (str2l "4226", str2l "43-4171.00", str2l "Receptionists and Information Clerks"),
  (str2l "4227", str2l "43-4111.00", str2l "Interviewers, Except Eligibility and Loan"),
  (str2l "4229", str2l "43-4199.00", str2l "Information and Record Clerks, All Other"),
  (str2l "4311", str2l "43-3031.00", str2l "Bookkeeping, Accounting, and Auditing Clerks"),
  (str2l "4312", str2l "43-9111.00", str2l "Statistical Assistants"),
  (str2l "4313", str2l "43-3051.00", str2l "Payroll and Timekeeping Clerks"),
  (str2l "4321", str2l "43-5071.00", str2l "Shipping, Receiving, and Inventory Clerks"),
  (str2l "4322", str2l "43-5061.00", str2l "Production, Planning, and Expediting Clerks"),
  (str2l "4323", str2l "43-5011.00", str2l "Cargo and Freight Agents"),
  (str2l "4411", str2l "43-4121.00", str2l "Library Assistants, Clerical"),
  (str2l "4412", str2l "43-9051.00", str2l "Mail Clerks and Mail Machine Operators, Except Postal Service"),
  (str2l "4413", str2l "43-9081.00", str2l "Proofreaders and Copy Markers"),
  (str2l "4414", str2l "43-9022.00", str2l "Word Processors and Typists"),
  (str2l "4415", str2l "43-4071.00", str2l "File Clerks"),
  (str2l "4416", str2l "43-4161.00", str2l "Human Resources Assistants, Except Payroll and Timekeeping"),
  (str2l "4419", str2l "43-9199.00", str2l "Office and Administrative Support Workers, All Other"),
  (str2l "5111", str2l "53-2031.00", str2l "Flight Attendants"),
  (str2l "5112", str2l "53-4031.00", str2l "Railroad Conductors and Yardmasters"),
  (str2l "5113", str2l "39-7011.00", str2l "Tour Guides and Escorts"),
  (str2l "5120", str2l "35-2014.00", str2l "Cooks, Restaurant"),
  (str2l "5131", str2l "35-3031.00", str2l "Waiters and Waitresses"),
  (str2l "5132", str2l "35-3011.00", str2l "Bartenders"),
  (str2l "5141", str2l "39-5012.00", str2l "Hairdressers, Hairstylists, and Cosmetologists"),
  (str2l "5142", str2l "39-5012.00", str2l "Hairdressers, Hairstylists, and Cosmetologists"),
  (str2l "5151", str2l "37-2011.00", str2l "Janitors and Cleaners, Except Maids and Housekeeping Cleaners"),
  (str2l "5152", str2l "37-2012.00", str2l "Maids and Housekeeping Cleaners"),
  (str2l "5153", str2l "37-1011.00", str2l "First-Line Supervisors of Housekeeping and Janitorial Workers"),
  (str2l "5161", str2l "39-9099.00", str2l "Personal Care and Service Workers, All Other"),
  (str2l "5162", str2l "39-9099.00", str2l "Personal Care and Service Workers, All Other"),
  (str2l "5163", str2l "39-4031.00", str2l "Morticians, Undertakers, and Funeral Arrangers"),
  (str2l "5164", str2l "39-2021.00", str2l "Animal Caretakers"),
  (str2l "5165", str2l "25-3021.00", str2l "Self-Enrichment Teachers"),
  (str2l "5169", str2l "39-9099.00", str2l "Personal Care and Service Workers, All Other"),
  (str2l "5211", str2l "41-2031.00", str2l "Retail Salespersons"),
  (str2l "5212", str2l "41-9091.00", str2l "Door-to-Door Sales Workers, News and Street Vendors, and Related Workers"),
  (str2l "5221", str2l "41-1011.00", str2l "First-Line Supervisors of Retail Sales Workers"),
  (str2l "5222", str2l "41-1011.00", str2l "First-Line Supervisors of Retail Sales Workers"),
  (str2l "5223", str2l "41-2031.00", str2l "Retail Salespersons"),
  (str2l "5230", str2l "41-2011.00", str2l "Cashiers"),
  (str2l "5241", str2l "41-9012.00", str2l "Models"),
  (str2l "5242", str2l "41-9011.00", str2l "Demonstrators and Product Promoters"),
  (str2l "5243", str2l "41-9091.00", str2l "Door-to-Door Sales Workers, News and Street Vendors, and Related Workers"),
  (str2l "5244", str2l "41-9041.00", str2l "Telemarketers"),
  (str2l "5245", str2l "53-6031.00", str2l "Automotive and Watercraft Service Attendants"),
  (str2l "5246", str2l "35-3023.00", str2l "Fast Food and Counter Workers"),
  (str2l "5249", str2l "41-9099.00", str2l "Sales and Related Workers, All Other"),
  (str2l "5311", str2l "39-9011.00", str2l "Childcare Workers"),
  (str2l "5312", str2l "25-9042.00", str2l "Teaching Assistants, Preschool, Elementary, Middle, and Secondary School, Except Special Education"),
  (str2l "5321", str2l "31-1121.00", str2l "Home Health Aides"),
  (str2l "5322", str2l "31-1122.00", str2l "Personal Care Aides"),
  (str2l "5329", str2l "31-9099.00", str2l "Healthcare Support Workers, All Other"),
  (str2l "5411", str2l "33-2011.00", str2l "Firefighters"),
  (str2l "5412", str2l "33-3051.00", str2l "Police and Sheriff\x27s Patrol Officers"),
  (str2l "5413", str2l "33-3012.00", str2l "Correctional Officers and Jailers"),
  (str2l "5414", str2l "33-9032.00", str2l "Security Guards"),
  (str2l "5419", str2l "33-9099.00", str2l "Protective Service Workers, All Other"),
  (str2l "6111", str2l "45-2092.00", str2l "Farmworkers and Laborers, Crop, Nursery, and Greenhouse"),
  (str2l "6112", str2l "45-2092.00", str2l "Farmworkers and Laborers, Crop, Nursery, and Greenhouse"),
  (str2l "6113", str2l "37-3011.00", str2l "Landscaping and Groundskeeping Workers"),
  (str2l "6114", str2l "45-2092.00", str2l "Farmworkers and Laborers, Crop, Nursery, and Greenhouse"),
  (str2l "6121", str2l "45-2021.00", str2l "Animal Breeders"),
  (str2l "6122", str2l "45-2093.00", str2l "Farmworkers, Farm, Ranch, and Aquacultural Animals"),
  (str2l "6123", str2l "45-2093.00", str2l "Farmworkers, Farm, Ranch, and Aquacultural Animals"),
  (str2l "6129", str2l "45-2093.00", str2l "Farmworkers, Farm, Ranch, and Aquacultural Animals"),
  (str2l "6130", str2l "45-2093.00", str2l "Farmworkers, Farm, Ranch, and Aquacultural Animals"),
  (str2l "6210", str2l "45-4011.00", str2l "Forest and Conservation Workers"),
  (str2l "6221", str2l "45-3031.00", str2l "Fishing and Hunting Workers"),
  (str2l "6222", str2l "45-3031.00", str2l "Fishing and Hunting Workers"),
  (str2l "6223", str2l "45-3031.00", str2l "Fishing and Hunting Workers"),
  (str2l "6224", str2l "45-3031.00", str2l "Fishing and Hunting Workers"),
  (str2l "7111", str2l "47-2061.00", str2l "Construction Laborers"),
  (str2l "7112", str2l "47-2021.00", str2l "Brickmasons and Blockmasons"),
  (str2l "7113", str2l "47-2022.00", str2l "Stonemasons"),
  (str2l "7114", str2l "47-2051.00", str2l "Cement Masons and Concrete Finishers"),
  (str2l "7115", str2l "47-2031.00", str2l "Carpenters"),
  (str2l "7119", str2l "47-2061.00", str2l "Construction Laborers"),
  (str2l "7121", str2l "47-2181.00", str2l "Roofers"),
  (str2l "7122", str2l "47-2044.00", str2l "Tile and Stone Setters"),
  (str2l "7123", str2l "47-2161.00", str2l "Plasterers and Stucco Masons"),
  (str2l "7124", str2l "47-2131.00", str2l "Insulation Workers, Floor, Ceiling, and Wall"),
  (str2l "7125", str2l "47-2121.00", str2l "Glaziers"),
  (str2l "7126", str2l "47-2152.00", str2l "Plumbers, Pipefitters, and Steamfitters"),
  (str2l "7127", str2l "49-9021.00", str2l "Heating, Air Conditioning, and Refrigeration Mechanics and Installers"),
  (str2l "7131", str2l "47-2141.00", str2l "Painters, Construction and Maintenance"),
  (str2l "7132", str2l "51-9124.00", str2l "Coating, Painting, and Spraying Machine Setters, Operators, and Tenders"),
  (str2l "7133", str2l "37-2011.00", str2l "Janitors and Cleaners, Except Maids and Housekeeping Cleaners"),
  (str2l "7211", str2l "51-4071.00", str2l "Foundry Mold and Coremakers"),
  (str2l "7212", str2l "51-4121.00", str2l "Welders, Cutters, Solderers, and Brazers"),
  (str2l "7213", str2l "47-2211.00", str2l "Sheet Metal Workers"),
  (str2l "7214", str2l "51-2041.00", str2l "Structural Metal Fabricators and Fitters"),
  (str2l "7215", str2l "49-9096.00", str2l "Riggers"),
  (str2l "7221", str2l "51-4199.00", str2l "Metal Workers and Plastic Workers, All Other"),
  (str2l "7222", str2l "51-4111.00", str2l "Tool and Die Makers"),
  (str2l "7223", str2l "51-4041.00", str2l "Machinists"),
  (str2l "7224", str2l "51-4033.00", str2l "Grinding, Lapping, Polishing, and Buffing Machine Tool Setters, Operators, and Tenders, Metal and Plastic"),
  (str2l "7231", str2l "49-3023.00", str2l "Automotive Service Technicians and Mechanics"),
  (str2l "7232", str2l "49-3011.00", str2l "Aircraft Mechanics and Service Technicians"),
  (str2l "7233", str2l "49-3041.00", str2l "Farm Equipment Mechanics and Service Technicians"),
  (str2l "7234", str2l "49-3091.00", str2l "Bicycle Repairers"),
  (str2l "7311", str2l "49-9064.00", str2l "Watch and Clock Repairers"),
  (str2l "7312", str2l "49-9063.00", str2l "Musical Instrument Repairers and Tuners"),
  (str2l "7313", str2l "51-9071.00", str2l "Jewelers and Precious Stone and Metal Workers"),
  (str2l "7314", str2l "51-9195.05", str2l "Potters, Manufacturing"),
  (str2l "7315", str2l "51-9195.04", str2l "Glass Blowers, Molders, Benders, and Finishers"),
  (str2l "7316", str2l "27-1024.00", str2l "Graphic Designers"),
  (str2l "7317", str2l "51-7099.00", str2l "Woodworkers, All Other"),
  (str2l "7318", str2l "51-6099.00", str2l "Textile, Apparel, and Furnishings Workers, All Other"),
  (str2l "7319", str2l "51-9199.00", str2l "Production Workers, All Other"),
  (str2l "7321", str2l "51-5111.00", str2l "Prepress Technicians and Workers"),
  (str2l "7322", str2l "51-5112.00", str2l "Printing Press Operators"),
  (str2l "7323", str2l "51-5113.00", str2l "Print Binding and Finishing Workers"),
  (str2l "7411", str2l "47-2111.00", str2l "Electricians"),
  (str2l "7412", str2l "49-2092.00", str2l "Electric Motor, Power Tool, and Related Repairers"),
  (str2l "7413", str2l "49-9051.00", str2l "Electrical Power-Line Installers and Repairers"),
  (str2l "7421", str2l "49-2094.00", str2l "Electrical and Electronics Repairers, Commercial and Industrial Equipment"),
  (str2l "7422", str2l "49-2022.00", str2l "Telecommunications Equipment Installers and Repairers, Except Line Installers"),
  (str2l "7511", str2l "51-3021.00", str2l "Butchers and Meat Cutters"),
  (str2l "7512", str2l "51-3011.00", str2l "Bakers"),
  (str2l "7513", str2l "51-3092.00", str2l "Food Batchmakers"),
  (str2l "7514", str2l "51-3092.00", str2l "Food Batchmakers"),
  (str2l "7515", str2l "19-4013.00", str2l "Food Science Technicians"),
  (str2l "7516", str2l "51-3091.00", str2l "Food and Tobacco Roasting, Baking, and Drying Machine Operators and Tenders"),
  (str2l "7521", str2l "51-7011.00", str2l "Cabinetmakers and Bench Carpenters"),
  (str2l "7522", str2l "51-7011.00", str2l "Cabinetmakers and Bench Carpenters"),
  (str2l "7523", str2l "51-7042.00", str2l "Woodworking Machine Setters, Operators, and Tenders, Except Sawing"),
  (str2l "7531", str2l "51-6052.00", str2l "Tailors, Dressmakers, and Custom Sewers"),
  (str2l "7532", str2l "51-6062.00", str2l "Textile Cutting Machine Setters, Operators, and Tenders"),
  (str2l "7533", str2l "51-6031.00", str2l "Sewing Machine Operators"),
  (str2l "7534", str2l "51-6093.00", str2l "Upholsterers"),
  (str2l "7535", str2l "51-6099.00", str2l "Textile, Apparel, and Furnishings Workers, All Other"),
  (str2l "7536", str2l "51-6041.00", str2l "Shoe and Leather Workers and Repairers"),
  (str2l "7541", str2l "49-9092.00", str2l "Commercial Divers"),
  (str2l "7542", str2l "47-5032.00", str2l "Explosives Workers, Ordnance Handling Experts, and Blasters"),
  (str2l "7543", str2l "51-9061.00", str2l "Inspectors, Testers, Sorters, Samplers, and Weighers"),
  (str2l "7544", str2l "37-2021.00", str2l "Pest Control Workers"),
  (str2l "7549", str2l "51-9199.00", str2l "Production Workers, All Other"),
  (str2l "8111", str2l "47-5041.00", str2l "Continuous Mining Machine Operators"),
  (str2l "8112", str2l "51-9021.00", str2l "Crushing, Grinding, and Polishing Machine Setters, Operators, and Tenders"),
  (str2l "8113", str2l "47-5012.00", str2l "Rotary Drill Operators, Oil and Gas"),
  (str2l "8114", str2l "51-9023.00", str2l "Mixing and Blending Machine Setters, Operators, and Tenders"),
  (str2l "8121", str2l "51-4051.00", str2l "Metal-Refining Furnace Operators and Tenders"),
  (str2l "8122", str2l "51-4193.00", str2l "Plating Machine Setters, Operators, and Tenders, Metal and Plastic"),
  (str2l "8131", str2l "51-9011.00", str2l "Chemical Equipment Operators and Tenders"),
  (str2l "8132", str2l "51-9151.00", str2l "Photographic Process Workers and Processing Machine Operators"),
  (str2l "8141", str2l "51-9041.00", str2l "Extruding, Forming, Pressing, and Compacting Machine Setters, Operators, and Tenders"),
  (str2l "8142", str2l "51-4021.00", str2l "Extruding and Drawing Machine Setters, Operators, and Tenders, Metal and Plastic"),
  (str2l "8143", str2l "51-9196.00", str2l "Paper Goods Machine Setters, Operators, and Tenders"),
  (str2l "8151", str2l "51-6063.00", str2l "Textile Knitting and Weaving Machine Setters, Operators, and Tenders"),
  (str2l "8152", str2l "51-6063.00", str2l "Textile Knitting and Weaving Machine Setters, Operators, and Tenders"),
  (str2l "8153", str2l "51-6031.00", str2l "Sewing Machine Operators"),
  (str2l "8154", str2l "51-6061.00", str2l "Textile Bleaching and Dyeing Machine Operators and Tenders"),
  (str2l "8155", str2l "51-6099.00", str2l "Textile, Apparel, and Furnishings Workers, All Other"),
  (str2l "8156", str2l "51-6042.00", str2l "Shoe Machine Operators and Tenders"),
  (str2l "8157", str2l "51-6011.00", str2l "Laundry and Dry-Cleaning Workers"),
  (str2l "8159", str2l "51-6099.00", str2l "Textile, Apparel, and Furnishings Workers, All Other"),
  (str2l "8160", str2l "51-3092.00", str2l "Food Batchmakers"),
  (str2l "8171", str2l "51-9196.00", str2l "Paper Goods Machine Setters, Operators, and Tenders"),
  (str2l "8172", str2l "51-7041.00", str2l "Sawing Machine Setters, Operators, and Tenders, Wood"),
  (str2l "8181", str2l "51-9195.04", str2l "Glass Blowers, Molders, Benders, and Finishers"),
  (str2l "8182", str2l "51-8021.00", str2l "Stationary Engineers and Boiler Operators"),
  (str2l "8183", str2l "51-9111.00", str2l "Packaging and Filling Machine Operators and Tenders"),
  (str2l "8189", str2l "51-8099.00", str2l "Plant and System Operators, All Other"),
  (str2l "8211", str2l "51-2031.00", str2l "Engine and Other Machine Assemblers"),
  (str2l "8212", str2l "51-2022.00", str2l "Electrical and Electronic Equipment Assemblers"),
  (str2l "8219", str2l "51-2099.00", str2l "Assemblers and Fabricators, All Other"),
  (str2l "8311", str2l "53-4011.00", str2l "Locomotive Engineers"),
  (str2l "8312", str2l "53-4022.00", str2l "Railroad Brake, Signal, and Switch Operators and Locomotive Firers"),
  (str2l "8321", str2l "53-3054.00", str2l "Taxi Drivers"),
  (str2l "8322", str2l "53-3054.00", str2l "Taxi Drivers"),
  (str2l "8331", str2l "53-3052.00", str2l "Bus Drivers, Transit and Intercity"),
  (str2l "8332", str2l "53-3032.00", str2l "Heavy and Tractor-Trailer Truck Drivers"),
  (str2l "8341", str2l "45-2091.00", str2l "Agricultural Equipment Operators"),
  (str2l "8342", str2l "47-2073.00", str2l "Operating Engineers and Other Construction Equipment Operators"),
  (str2l "8343", str2l "53-7021.00", str2l "Crane and Tower Operators"),
  (str2l "8344", str2l "53-7051.00", str2l "Industrial Truck and Tractor Operators"),
  (str2l "8350", str2l "53-5011.00", str2l "Sailors and Marine Oilers"),
  (str2l "9111", str2l "37-2012.00", str2l "Maids and Housekeeping Cleaners"),
  (str2l "9112", str2l "37-2011.00", str2l "Janitors and Cleaners, Except Maids and Housekeeping Cleaners"),
  (str2l "9121", str2l "51-6011.00", str2l "Laundry and Dry-Cleaning Workers"),
  (str2l "9122", str2l "53-7061.00", str2l "Cleaners of Vehicles and Equipment"),
  (str2l "9123", str2l "37-2011.00", str2l "Janitors and Cleaners, Except Maids and Housekeeping Cleaners"),
  (str2l "9129", str2l "37-2019.00", str2l "Building Cleaning Workers, All Other"),
  (str2l "9211", str2l "45-2092.00", str2l "Farmworkers and Laborers, Crop, Nursery, and Greenhouse"),
  (str2l "9212", str2l "45-2093.00", str2l "Farmworkers, Farm, Ranch, and Aquacultural Animals"),
  (str2l "9213", str2l "45-2092.00", str2l "Farmworkers and Laborers, Crop, Nursery, and Greenhouse"),
  (str2l "9214", str2l "37-3011.00", str2l "Landscaping and Groundskeeping Workers"),
  (str2l "9215", str2l "45-4011.00", str2l "Forest and Conservation Workers"),
  (str2l "9216", str2l "45-3031.00", str2l "Fishing and Hunting Workers"),
  (str2l "9311", str2l "47-5099.00", str2l "Extraction Workers, All Other"),
  (str2l "9312", str2l "47-2061.00", str2l "Construction Laborers"),
  (str2l "9313", str2l "47-2061.00", str2l "Construction Laborers"),
  (str2l "9321", str2l "53-7064.00", str2l "Packers and Packagers, Hand"),
  (str2l "9329", str2l "51-9199.00", str2l "Production Workers, All Other"),
  (str2l "9331", str2l "53-7062.00", str2l "Laborers and Freight, Stock, and Material Movers, Hand"),
  (str2l "9332", str2l "53-7065.00", str2l "Stockers and Order Fillers"),
  (str2l "9333", str2l "53-7062.00", str2l "Laborers and Freight, Stock, and Material Movers, Hand"),
  (str2l "9334", str2l "53-7065.00", str2l "Stockers and Order Fillers"),
  (str2l "9411", str2l "35-2021.00", str2l "Food Preparation Workers"),
  (str2l "9412", str2l "35-9021.00", str2l "Dishwashers"),
  (str2l "9510", str2l "41-9091.00", str2l "Door-to-Door Sales Workers, News and Street Vendors, and Related Workers"),
  (str2l "9520", str2l "41-9091.00", str2l "Door-to-Door Sales Workers, News and Street Vendors, and Related Workers"),
  (str2l "9611", str2l "53-7081.00", str2l "Refuse and Recyclable Material Collectors"),
  (str2l "9612", str2l "53-7062.04", str2l "Recycling and Reclamation Workers"),
  (str2l "9613", str2l "37-2011.00", str2l "Janitors and Cleaners, Except Maids and Housekeeping Cleaners"),
  (str2l "9621", str2l "39-6011.00", str2l "Baggage Porters and Bellhops"),
  (str2l "9622", str2l "49-9071.00", str2l "Maintenance and Repair Workers, General"),
  (str2l "9623", str2l "43-5041.00", str2l "Meter Readers, Utilities"),
  (str2l "9624", str2l "53-7199.00", str2l "Material Moving Workers, All Other"),
  (str2l "9629", str2l "39-6011.00", str2l "Baggage Porters and Bellhops")
]

def DIVISION_DEFAULTS : List (List Char × List Char × List Char) := [
  (str2l "1", str2l "11-1021.00", str2l "General and Operations Managers"),
  (str2l "2", str2l "19-4099.00", str2l "Life, Physical, and Social Science Technicians, All Other"),
  (str2l "3", str2l "17-3029.00", str2l "Engineering Technologists and Technicians, Except Drafters, All Other"),
  (str2l "4", str2l "43-9199.00", str2l "Office and Administrative Support Workers, All Other"),
  (str2l "5", str2l "39-9099.00", str2l "Personal Care and Service Workers, All Other"),
  (str2l "6", str2l "45-2099.00", str2l "Agricultural Workers, All Other"),
  (str2l "7", str2l "51-9199.00", str2l "Production Workers, All Other"),
  (str2l "8", str2l "51-8099.00", str2l "Plant and System Operators, All Other"),
  (str2l "9", str2l "53-7199.00", str2l "Material Moving Workers, All Other")
]

/-- The keys of `SEMANTIC_KEYWORDS`, in dict insertion order. -/
def kwKeys : List (List Char) := SEMANTIC_KEYWORDS.map (fun p => p.1)

/-- `sorted(SEMANTIC_KEYWORDS.keys(), key=len, reverse=True)`:
stable sort by descending keyword length. -/
def sortedKeywords : List (List Char) := List.insertionSort lenGE kwKeys

/-- The first keyword of the sorted keyword list occurring in the
lower-cased title (the keyword chosen by the `for keyword in
sorted_keywords` loop). -/
def matchedKeyword (title_lower : List Char) : Option (List Char) :=
  sortedKeywords.find? (fun k => containsSub title_lower k)

/-- `find_semantic_match(title, nco_code)`.  `none` models the
`IndexError` raised by `nco_code[0]` on an empty code (and the
unreachable `KeyError` of the keyword-table access). -/
def find_semantic_match (title nco_code : List Char) :
    Option (List Char × List Char × Nat) :=
  match matchedKeyword (pyLower title) with
  | some k =>
    match List.lookup k SEMANTIC_KEYWORDS with
    | some v => some (v.1, v.2, 95)
    | none => none
  | none =>
    match List.lookup (nco_code.take 4) NCO_PREFIX_DEFAULTS with
    | some v => some (v.1, v.2, 80)
    | none =>
      match List.lookup (nco_code.take 3 ++ ['0']) NCO_PREFIX_DEFAULTS with
      | some v => some (v.1, v.2, 75)
      | none =>
        match nco_code with
        | [] => none
        | d :: _ =>
          match List.lookup [d] DIVISION_DEFAULTS with
          | some v => some (v.1, v.2, 60)
          | none => some ([], [], 0)


/-! ### Supporting lemmas for the matcher -/

/-- Splitting an occurrence of `needle` in `c :: t`: it is either an
occurrence at the head or an occurrence inside `t`. -/
theorem sub_cons_split (needle : List Char) (c : Char) (t : List Char) :
    needle <:+: (c :: t) ↔ needle <+: (c :: t) ∨ needle <:+: t := by
  constructor
  · rintro ⟨s, u, h⟩
    cases s with
    | nil => exact Or.inl ⟨u, by simpa using h⟩
    | cons a s =>
        simp only [List.cons_append, List.cons.injEq] at h
        exact Or.inr ⟨s, u, h.2⟩
  · rintro (⟨u, h⟩ | ⟨s, u, h⟩)
    · exact ⟨[], u, by simpa using h⟩
    · exact ⟨c :: s, u, by simp [← h]⟩

/-- `containsSub` decides substring containment (Python's `in`). -/
theorem containsSub_iff (needle : List Char) :
    ∀ hay : List Char, containsSub hay needle = true ↔ needle <:+: hay := by
  intro hay
  induction hay with
  | nil =>
      rw [containsSub]
      by_cases hp : needle.isPrefixOf ([] : List Char)
      · rw [if_pos hp]
        have hn : needle = [] := List.prefix_nil.mp (List.isPrefixOf_iff_prefix.mp hp)
        subst hn
        simp
      · rw [if_neg hp]
        refine iff_of_false (by decide) ?_
        rintro ⟨s, u, h⟩
        rcases List.append_eq_nil.mp h with ⟨h1, h2⟩
        rcases List.append_eq_nil.mp h1 with ⟨h3, h4⟩
        exact hp (List.isPrefixOf_iff_prefix.mpr (h4 ▸ List.nil_prefix))
  | cons c t ih =>
      rw [containsSub]
      by_cases hp : needle.isPrefixOf (c :: t)
      · rw [if_pos hp]
        simp only [true_iff]
        obtain ⟨u, hu⟩ := List.isPrefixOf_iff_prefix.mp hp
        exact ⟨[], u, by simpa using hu⟩
      · rw [if_neg hp]
        rw [sub_cons_split]
        simp only [ih]
        constructor
        · exact Or.inr
        · rintro (h | h)
          · exact absurd (List.isPrefixOf_iff_prefix.mpr h) hp
          · exact h

/-- On a list sorted by descending length, `find?` returns an element of
maximal length among those satisfying the predicate. -/
theorem find_first_longest {p : List Char → Bool} :
    ∀ {l : List (List Char)} {k : List Char}, l.Pairwise lenGE → l.find? p = some k →
      ∀ k2 ∈ l, p k2 = true → k2.length ≤ k.length := by
  intro l
  induction l with
  | nil => intro k _ hf; simp at hf
  | cons a t ih =>
      intro k hpw hf k2 hk2 hp2
      rw [List.pairwise_cons] at hpw
      by_cases ha : p a = true
      · rw [List.find?_cons_of_pos _ ha] at hf
        injection hf with hf
        subst hf
        rcases List.mem_cons.mp hk2 with rfl | hmem
        · exact Nat.le_refl _
        · exact hpw.1 k2 hmem
      · rw [List.find?_cons_of_neg _ ha] at hf
        rcases List.mem_cons.mp hk2 with rfl | hmem
        · exact absurd hp2 ha
        · exact ih hpw.2 hf k2 hmem hp2

/-- A key occurring in an association list's key column has a lookup value. -/
theorem lookup_of_mem_keys {β : Type} (k : List Char) :
    ∀ l : List (List Char × β), k ∈ l.map (fun p => p.1) → ∃ v, List.lookup k l = some v := by
  intro l
  induction l with
  | nil => simp
  | cons a t ih =>
      intro hm
      rw [List.map_cons, List.mem_cons] at hm
      rw [List.lookup]
      cases hb : (k == a.1) with
      | true => exact ⟨a.2, rfl⟩
      | false =>
          rcases hm with he | hmem
          · rw [he] at hb
            simp at hb
          · exact ih hmem

/-- The sorted keyword list is pairwise descending in length. -/
theorem sortedKeywords_pairwise : sortedKeywords.Pairwise lenGE :=
  List.sorted_insertionSort lenGE kwKeys

/-- If some table keyword occurs in the lower-cased title, the keyword
scan finds one. -/
theorem matchedKeyword_isSome_of_kw (tl k : List Char) (hk : k ∈ kwKeys)
    (hs : k <:+: tl) : ∃ k0, matchedKeyword tl = some k0 := by
  have h : (sortedKeywords.find? (fun x => containsSub tl x)).isSome := by
    rw [List.find?_isSome]
    exact ⟨k, (List.mem_insertionSort lenGE).mpr hk, (containsSub_iff k tl).mpr hs⟩
  obtain ⟨k0, hk0⟩ := Option.isSome_iff_exists.mp h
  exact ⟨k0, hk0⟩

/-- If no table keyword occurs in the lower-cased title, the keyword
scan fails. -/
theorem matchedKeyword_eq_none (tl : List Char)
    (h : ∀ k ∈ kwKeys, ¬ k <:+: tl) : matchedKeyword tl = none := by
  rw [matchedKeyword, List.find?_eq_none]
  intro x hx hc
  exact h x ((List.mem_insertionSort lenGE).mp hx) ((containsSub_iff x tl).mp hc)

/-- Conversely, a failed keyword scan means no table keyword occurs. -/
theorem no_kw_of_matchedKeyword_none (tl : List Char)
    (h : matchedKeyword tl = none) : ∀ k ∈ kwKeys, ¬ k <:+: tl := by
  intro k hk hs
  rw [matchedKeyword, List.find?_eq_none] at h
  exact h k ((List.mem_insertionSort lenGE).mpr hk) ((containsSub_iff k tl).mpr hs)

/-- Bridge for concrete instances: a decidable all-keywords check
implies the no-keyword hypothesis. -/
theorem no_kw_of_all (tl : List Char)
    (h : kwKeys.all (fun k => ! containsSub tl k) = true) :
    ∀ k ∈ kwKeys, ¬ k <:+: tl := by
  intro k hk hs
  have hc := List.all_eq_true.mp h k hk
  rw [(containsSub_iff k tl).mpr hs] at hc
  simp at hc

/-- Once the keyword scan has chosen a keyword, `find_semantic_match`
is determined by the keyword table alone. -/
theorem find_match_kw (title nco_code k : List Char)
    (h : matchedKeyword (pyLower title) = some k) :
    find_semantic_match title nco_code =
      match List.lookup k SEMANTIC_KEYWORDS with
      | some v => some (v.1, v.2, 95)
      | none => none := by
  unfold find_semantic_match
  rw [h]

/-- Case analysis: on a non-empty code, `find_semantic_match` returns a
triple whose score is one of the five tier scores. -/
theorem find_cases (title nco_code : List Char) (h : nco_code ≠ []) :
    ∃ c t s, find_semantic_match title nco_code = some (c, t, s) ∧
      (s = 95 ∨ s = 80 ∨ s = 75 ∨ s = 60 ∨ s = 0) := by
  cases hk : matchedKeyword (pyLower title) with
  | some k =>
      have hkm : k ∈ kwKeys := by
        rw [matchedKeyword] at hk
        exact (List.mem_insertionSort lenGE).mp (List.mem_of_find?_eq_some hk)
      obtain ⟨v, hv⟩ := lookup_of_mem_keys k SEMANTIC_KEYWORDS hkm
      refine ⟨v.1, v.2, 95, ?_, Or.inl rfl⟩
      unfold find_semantic_match
      simp only [hk, hv]
  | none =>
      cases h4 : List.lookup (nco_code.take 4) NCO_PREFIX_DEFAULTS with
      | some v =>
          refine ⟨v.1, v.2, 80, ?_, Or.inr (Or.inl rfl)⟩
          unfold find_semantic_match
          simp only [hk, h4]
      | none =>
          cases h3 : List.lookup (nco_code.take 3 ++ ['0']) NCO_PREFIX_DEFAULTS with
          | some v =>
              refine ⟨v.1, v.2, 75, ?_, Or.inr (Or.inr (Or.inl rfl))⟩
              unfold find_semantic_match
              simp only [hk, h4, h3]
          | none =>
              cases nco_code with
              | nil => exact absurd rfl h
              | cons d rest =>
                  cases hd : List.lookup [d] DIVISION_DEFAULTS with
                  | some v =>
                      refine ⟨v.1, v.2, 60, ?_, Or.inr (Or.inr (Or.inr (Or.inl rfl)))⟩
                      unfold find_semantic_match
                      simp only [hk, h4, h3, hd]
                  | none =>
                      refine ⟨[], [], 0, ?_, Or.inr (Or.inr (Or.inr (Or.inr rfl)))⟩
                      unfold find_semantic_match
                      simp only [hk, h4, h3, hd]

/-! ### Claim theorems for the semantic matcher -/

/-- C1 (amended): for every title string and every NON-EMPTY primary
code string, `find_semantic_match` returns normally with a score in
{0, 60, 75, 80, 95}; purity and determinism are definitional for the
embedded function.  (On an empty code whose title matches no keyword
the original code raises `IndexError`, see the counterexample.) -/
theorem C1_score_set (title nco_code : List Char) (h : nco_code ≠ []) :
    ∃ r, find_semantic_match title nco_code = some r ∧
      (r.2.2 = 0 ∨ r.2.2 = 60 ∨ r.2.2 = 75 ∨ r.2.2 = 80 ∨ r.2.2 = 95) := by
  obtain ⟨c, t, s, he, hs⟩ := find_cases title nco_code h
  refine ⟨(c, t, s), he, ?_⟩
  show s = 0 ∨ s = 60 ∨ s = 75 ∨ s = 80 ∨ s = 95
  omega

/-- C1 witness: a concrete non-empty code gets a score in the set. -/
theorem C1_score_set_witness :
    (str2l "2131.0100" ≠ []) ∧
    ∃ r, find_semantic_match (str2l "mycologist") (str2l "2131.0100") = some r ∧
      (r.2.2 = 0 ∨ r.2.2 = 60 ∨ r.2.2 = 75 ∨ r.2.2 = 80 ∨ r.2.2 = 95) :=
  ⟨by decide, C1_score_set (str2l "mycologist") (str2l "2131.0100") (by decide)⟩

set_option maxRecDepth 1000000 in
/-- C1 counterexample: on the empty primary code with a keyword-free
title, `find_semantic_match` does not return a score at all — the
Python code raises `IndexError` at `nco_code[0]` (modelled `none`),
refuting the claim for EVERY primary code string. -/
theorem C1_cex : find_semantic_match (str2l "zzz") (str2l "") = none := by decide

/-- C2: whenever some table keyword occurs in the lower-cased title,
`find_semantic_match` resolves through the keyword tier with score 95,
for EVERY primary code (so the prefix and division tiers are never
consulted). -/
theorem C2_keyword_tier_wins (title nco_code k : List Char)
    (hk : k ∈ kwKeys) (hs : k <:+: pyLower title) :
    ∃ k0 v, matchedKeyword (pyLower title) = some k0 ∧
      List.lookup k0 SEMANTIC_KEYWORDS = some v ∧
      find_semantic_match title nco_code = some (v.1, v.2, 95) := by
  obtain ⟨k0, hk0⟩ := matchedKeyword_isSome_of_kw (pyLower title) k hk hs
  have hk0m : k0 ∈ kwKeys := by
    rw [matchedKeyword] at hk0
    exact (List.mem_insertionSort lenGE).mp (List.mem_of_find?_eq_some hk0)
  obtain ⟨v, hv⟩ := lookup_of_mem_keys k0 SEMANTIC_KEYWORDS hk0m
  refine ⟨k0, v, hk0, hv, ?_⟩
  rw [find_match_kw title nco_code k0 hk0]
  simp only [hv]

set_option maxRecDepth 1000000 in
/-- C2 witness: the title "District Judge" contains keyword "judge",
and a code with a prefix-table entry still resolves at 95. -/
theorem C2_keyword_tier_wins_witness :
    (str2l "judge" ∈ kwKeys ∧ str2l "judge" <:+: pyLower (str2l "District Judge")) ∧
    ∃ k0 v, matchedKeyword (pyLower (str2l "District Judge")) = some k0 ∧
      List.lookup k0 SEMANTIC_KEYWORDS = some v ∧
      find_semantic_match (str2l "District Judge") (str2l "1111.0001") = some (v.1, v.2, 95) :=
  ⟨⟨by decide, (containsSub_iff (str2l "judge") (pyLower (str2l "District Judge"))).mp (by decide)⟩,
   C2_keyword_tier_wins (str2l "District Judge") (str2l "1111.0001") (str2l "judge")
     (by decide) ((containsSub_iff (str2l "judge") (pyLower (str2l "District Judge"))).mp (by decide))⟩

set_option maxRecDepth 1000000 in
/-- C3: the keyword tier always selects a keyword of greatest length
among the table keywords occurring in the lower-cased title; in
particular "principal, college of arts" resolves via the longer key
"principal, college" to (11-9033.00, Education Administrators,
Postsecondary) with score 95, for any primary code. -/
theorem C3_longest_keyword :
    (∀ title k, matchedKeyword (pyLower title) = some k →
        ∀ k2 ∈ kwKeys, k2 <:+: pyLower title → k2.length ≤ k.length) ∧
    (∀ nco_code, find_semantic_match (str2l "principal, college of arts") nco_code =
        some (str2l "11-9033.00", str2l "Education Administrators, Postsecondary", 95)) := by
  constructor
  · intro title k hk k2 hk2 hs
    rw [matchedKeyword] at hk
    exact find_first_longest sortedKeywords_pairwise hk k2
      ((List.mem_insertionSort lenGE).mpr hk2) ((containsSub_iff k2 (pyLower title)).mpr hs)
  · intro nco_code
    have hmk : matchedKeyword (pyLower (str2l "principal, college of arts")) =
        some (str2l "principal, college") := by decide
    rw [find_match_kw (str2l "principal, college of arts") nco_code (str2l "principal, college") hmk]
    decide

set_option maxRecDepth 1000000 in
/-- C3 witness: the shorter key "principal" is indeed out-ranked by the
selected "principal, college", and the concrete call returns its
outcome. -/
theorem C3_longest_keyword_witness :
    (str2l "principal").length ≤ (str2l "principal, college").length ∧
    find_semantic_match (str2l "principal, college of arts") (str2l "1341.0100") =
      some (str2l "11-9033.00", str2l "Education Administrators, Postsecondary", 95) :=
  ⟨C3_longest_keyword.1 (str2l "principal, college of arts") (str2l "principal, college")
      (by decide) (str2l "principal") (by decide)
      ((containsSub_iff (str2l "principal") (pyLower (str2l "principal, college of arts"))).mp (by decide)),
   C3_longest_keyword.2 (str2l "1341.0100")⟩

/-- C4: when the title matches no keyword and neither prefix-table key
is present, a code whose leading digit is in the division table
resolves at score 60 with that division's target, never score 0. -/
theorem C4_division_fallback (title : List Char) (d : Char) (rest : List Char)
    (v : List Char × List Char)
    (hkw : ∀ k ∈ kwKeys, ¬ k <:+: pyLower title)
    (h4 : List.lookup ((d :: rest).take 4) NCO_PREFIX_DEFAULTS = none)
    (h3 : List.lookup ((d :: rest).take 3 ++ ['0']) NCO_PREFIX_DEFAULTS = none)
    (hd : List.lookup [d] DIVISION_DEFAULTS = some v) :
    find_semantic_match title (d :: rest) = some (v.1, v.2, 60) := by
  unfold find_semantic_match
  simp only [matchedKeyword_eq_none (pyLower title) hkw, h4, h3, hd]

set_option maxRecDepth 1000000 in
/-- C4 witness: division 6, code "6999.0001", keyword-free title. -/
theorem C4_division_fallback_witness :
    List.lookup [('6' : Char)] DIVISION_DEFAULTS =
      some (str2l "45-2099.00", str2l "Agricultural Workers, All Other") ∧
    find_semantic_match (str2l "zzz") ('6' :: str2l "999.0001") =
      some (str2l "45-2099.00", str2l "Agricultural Workers, All Other", 60) :=
  ⟨by decide,
   C4_division_fallback (str2l "zzz") '6' (str2l "999.0001")
     (str2l "45-2099.00", str2l "Agricultural Workers, All Other")
     (no_kw_of_all (pyLower (str2l "zzz")) (by decide)) (by decide) (by decide) (by decide)⟩

/-- C5: when the keyword tier fails and the 4-character prefix is
absent, the coarse tier looks up the leading 3 characters with a
literal '0' appended, in the SAME prefix table, and a hit scores 75. -/
theorem C5_coarse_prefix (title nco_code : List Char) (v : List Char × List Char)
    (hkw : ∀ k ∈ kwKeys, ¬ k <:+: pyLower title)
    (h4 : List.lookup (nco_code.take 4) NCO_PREFIX_DEFAULTS = none)
    (h3 : List.lookup (nco_code.take 3 ++ ['0']) NCO_PREFIX_DEFAULTS = some v) :
    find_semantic_match title nco_code = some (v.1, v.2, 75) := by
  unfold find_semantic_match
  simp only [matchedKeyword_eq_none (pyLower title) hkw, h4, h3]

set_option maxRecDepth 1000000 in
/-- C5 witness: code "1125.0000": "1125" misses, "1120" hits at 75. -/
theorem C5_coarse_prefix_witness :
    List.lookup ((str2l "1125.0000").take 4) NCO_PREFIX_DEFAULTS = none ∧
    find_semantic_match (str2l "zzz") (str2l "1125.0000") =
      some (str2l "11-1011.00", str2l "Chief Executives", 75) :=
  ⟨by decide,
   C5_coarse_prefix (str2l "zzz") (str2l "1125.0000")
     (str2l "11-1011.00", str2l "Chief Executives")
     (no_kw_of_all (pyLower (str2l "zzz")) (by decide)) (by decide) (by decide)⟩

/-- C6: when no tier applies, `find_semantic_match` returns the empty
target code, empty target title and score 0 as a normal value. -/
theorem C6_unresolved_zero (title : List Char) (d : Char) (rest : List Char)
    (hkw : ∀ k ∈ kwKeys, ¬ k <:+: pyLower title)
    (h4 : List.lookup ((d :: rest).take 4) NCO_PREFIX_DEFAULTS = none)
    (h3 : List.lookup ((d :: rest).take 3 ++ ['0']) NCO_PREFIX_DEFAULTS = none)
    (hd : List.lookup [d] DIVISION_DEFAULTS = none) :
    find_semantic_match title (d :: rest) = some ([], [], 0) := by
  unfold find_semantic_match
  simp only [matchedKeyword_eq_none (pyLower title) hkw, h4, h3, hd]

set_option maxRecDepth 1000000 in
/-- C6 witness: division '0' is covered by no tier. -/
theorem C6_unresolved_zero_witness :
    List.lookup [('0' : Char)] DIVISION_DEFAULTS = none ∧
    find_semantic_match (str2l "zzz") ('0' :: str2l "000.0000") = some ([], [], 0) :=
  ⟨by decide,
   C6_unresolved_zero (str2l "zzz") '0' (str2l "000.0000")
     (no_kw_of_all (pyLower (str2l "zzz")) (by decide)) (by decide) (by decide) (by decide)⟩

/-- C9: `find_semantic_match` returns normally on every title and every
primary code of length at least 1; conversely the only failing calls
are those with an empty primary code whose title matches no keyword. -/
theorem C9_total_on_nonempty :
    (∀ title nco_code : List Char, 1 ≤ nco_code.length →
        (find_semantic_match title nco_code).isSome = true) ∧
    (∀ title nco_code : List Char, find_semantic_match title nco_code = none →
        nco_code = [] ∧ ∀ k ∈ kwKeys, ¬ k <:+: pyLower title) := by
  constructor
  · intro title code hlen
    have hne : code ≠ [] := by
      intro he
      rw [he] at hlen
      simp at hlen
    obtain ⟨c, t, s, he, _⟩ := find_cases title code hne
    rw [he]
    rfl
  · intro title code hnone
    by_cases hne : code = []
    · subst hne
      refine ⟨rfl, ?_⟩
      cases hk : matchedKeyword (pyLower title) with
      | some k =>
          have hkm : k ∈ kwKeys := by
            rw [matchedKeyword] at hk
            exact (List.mem_insertionSort lenGE).mp (List.mem_of_find?_eq_some hk)
          obtain ⟨v, hv⟩ := lookup_of_mem_keys k SEMANTIC_KEYWORDS hkm
          rw [find_match_kw title [] k hk] at hnone
          simp only [hv] at hnone
          exact Option.noConfusion hnone
      | none => exact no_kw_of_matchedKeyword_none (pyLower title) hk
    · obtain ⟨c, t, s, he, _⟩ := find_cases title code hne
      rw [he] at hnone
      exact Option.noConfusion hnone

/-- C9 witness: a length-1 code returns normally. -/
theorem C9_total_on_nonempty_witness :
    1 ≤ (str2l "1").length ∧
    (find_semantic_match (str2l "zzz") (str2l "1")).isSome = true :=
  ⟨by decide, C9_total_on_nonempty.1 (str2l "zzz") (str2l "1") (by decide)⟩

/-- C10: when the lower-cased title contains a table keyword, the
result of `find_semantic_match` does not depend on the primary code. -/
theorem C10_code_independent (title c1 c2 k : List Char)
    (hk : k ∈ kwKeys) (hs : k <:+: pyLower title) :
    find_semantic_match title c1 = find_semantic_match title c2 := by
  obtain ⟨k0, hk0⟩ := matchedKeyword_isSome_of_kw (pyLower title) k hk hs
  rw [find_match_kw title c1 k0 hk0, find_match_kw title c2 k0 hk0]

set_option maxRecDepth 1000000 in
/-- C10 witness: with keyword "judge" in the title, two very different
codes give the same result. -/
theorem C10_code_independent_witness :
    str2l "judge" ∈ kwKeys ∧
    find_semantic_match (str2l "Judge, Supreme Court") (str2l "1111.0001") =
      find_semantic_match (str2l "Judge, Supreme Court") (str2l "9999.9999") :=
  ⟨by decide,
   C10_code_independent (str2l "Judge, Supreme Court") (str2l "1111.0001") (str2l "9999.9999")
     (str2l "judge") (by decide)
     ((containsSub_iff (str2l "judge") (pyLower (str2l "Judge, Supreme Court"))).mp (by decide))⟩

/-! ### The NCO document line extractor

The extractor (`extract_nco_records`) splits the document text on
newline characters — so the per-line input never contains a newline —
strips each line, skips known noise lines, and tries two anchored
patterns.  The regex `^(\d{4}\.\d{4})\s+(.+?)\s+(\d{4}\.\d{2})$` is
modelled by a fixed 9-character code prefix, a fixed 7-character code
suffix (the trailing group is anchored and of fixed width), and a
backtracking search for the `\s+(.+?)\s+` middle with a greedy leading
whitespace run and a lazy title; `^(\d{4}\.\d{4})\s+(.+)$` likewise
with a greedy title extending to the end of the line.  `\d`, `\s` and
the end anchor are modelled at ASCII / newline-free-line granularity. -/

/-- One record of the source taxonomy: NCO-2015 code, title, and the
optional NCO-2004 code ('' when absent). -/
structure NCORecord where
  nco2015 : List Char
  title : List Char
  nco2004 : List Char
deriving DecidableEq

/-- Shape `\d{4}\.\d{4}` (exactly 9 characters). -/
def matchesNCO2015 : List Char → Bool
  | [a, b, c, d, e, f, g, h, i] =>
    a.isDigit && b.isDigit && c.isDigit && d.isDigit && e = '.' &&
    f.isDigit && g.isDigit && h.isDigit && i.isDigit
  | _ => false

/-- Shape `\d{4}\.\d{2}` (exactly 7 characters). -/
def matchesNCO2004 : List Char → Bool
  | [a, b, c, d, e, f, g] =>
    a.isDigit && b.isDigit && c.isDigit && d.isDigit && e = '.' &&
    f.isDigit && g.isDigit
  | _ => false

/-- Lazy capture `(.+?)\s+` against the end of the region: the shortest
non-empty prefix (of `.`-matchable characters) whose remainder is a
non-empty whitespace run. -/
def lazySplit : List Char → Option (List Char)
  | [] => none
  | c :: cs =>
    if c = '\n' then none
    else if !cs.isEmpty && cs.all isSpace then some [c]
    else (lazySplit cs).map (fun t => c :: t)

/-- Backtracking match of `\s+(.+?)\s+` against a whole region: the
leading `\s+` is greedy (a longer whitespace run is preferred), the
captured group is lazy. -/
def pat1Title : List Char → Option (List Char)
  | [] => none
  | c :: cs =>
    if isSpace c then
      match pat1Title cs with
      | some t => some t
      | none => lazySplit cs
    else none

/-- Backtracking match of `\s+(.+)$` against a whole region: the
leading `\s+` is greedy, the captured group runs to the end. -/
def pat2Title : List Char → Option (List Char)
  | [] => none
  | c :: cs =>
    if isSpace c then
      match pat2Title cs with
      | some t => some t
      | none => if !cs.isEmpty && cs.all (fun x => !(x = '\n')) then some cs else none
    else none

/-- `re.match(r'^(\d{4}\.\d{4})\s+(.+?)\s+(\d{4}\.\d{2})$', line)`:
the trailing group is the last 7 characters of the line. -/
def matchNCOWithSecondary (line : List Char) : Option (List Char × List Char × List Char) :=
  if matchesNCO2015 (line.take 9) &&
      matchesNCO2004 ((line.drop 9).drop ((line.drop 9).length - 7)) then
    (pat1Title ((line.drop 9).take ((line.drop 9).length - 7))).map
      (fun t => (line.take 9, t, (line.drop 9).drop ((line.drop 9).length - 7)))
  else none

/-- `re.match(r'^(\d{4}\.\d{4})\s+(.+)$', line)`. -/
def matchNCONoSecondary (line : List Char) : Option (List Char × List Char) :=
  if matchesNCO2015 (line.take 9) then
    (pat2Title (line.drop 9)).map (fun t => (line.take 9, t))
  else none

/-- `re.search(r'\d{4}\.\d{2}$', line)`: the last 7 characters have the
NCO-2004 shape. -/
def endsWithNCO2004 (l : List Char) : Bool :=
  matchesNCO2004 (l.drop (l.length - 7))

/-- The body of the per-line loop of `extract_nco_records`: strip,
skip noise lines, then try the two record patterns. -/
def parseNCOLine (raw : List Char) : Option NCORecord :=
  let line := pyStrip raw
  if line.isEmpty then none
  else if containsSub line (str2l "National Classification of Occupations") then none
  else if containsSub line (str2l "VOLUME") then none
  else if containsSub line (str2l "NCO 2015") && containsSub line (str2l "NCO 2004") then none
  else if (str2l "Division").isPrefixOf line || (str2l "Sub-").isPrefixOf line ||
      (str2l "Group").isPrefixOf line || (str2l "Family").isPrefixOf line then none
  else
    match matchNCOWithSecondary line with
    | some (c1, t, c2) => some ⟨c1, pyStrip t, c2⟩
    | none =>
      match matchNCONoSecondary line with
      | some (c1, t) =>
          if endsWithNCO2004 line then none else some ⟨c1, pyStrip t, []⟩
      | none => none

/-- `extract_nco_records`, from the split text lines onward. -/
def extract_nco_records (lines : List (List Char)) : List NCORecord :=
  lines.filterMap parseNCOLine

set_option maxRecDepth 1000000 in
/-- C7: the line with a trailing NCO-2004 code extracts to a full
record, and the line without one extracts with an empty secondary
code. -/
theorem C7_extraction :
    parseNCOLine (str2l "1111.0001 Chief Legislator 1111.01") =
      some ⟨str2l "1111.0001", str2l "Chief Legislator", str2l "1111.01"⟩ ∧
    parseNCOLine (str2l "1111.0002 Deputy Legislator") =
      some ⟨str2l "1111.0002", str2l "Deputy Legislator", []⟩ := by
  constructor <;> decide

/-! ### The crosswalk assembler (`create_crosswalk`) and its statistics -/

/-- One output crosswalk row (the six CSV fields). -/
structure CrosswalkEntry where
  nco2015 : List Char
  nco2004 : List Char
  ncoTitle : List Char
  onetCode : List Char
  onetTitle : List Char
  matchScore : Nat
deriving DecidableEq

/-- Build the row for one source record (`none` models a raised
exception propagating out of the loop). -/
def mkEntry (r : NCORecord) : Option CrosswalkEntry :=
  match find_semantic_match r.title r.nco2015 with
  | some (c, t, s) => some ⟨r.nco2015, r.nco2004, r.title, c, t, s⟩
  | none => none

/-- The `for nco in nco_records` loop of `create_crosswalk`: one row
appended per record, in input order. -/
def buildMapping : List NCORecord → Option (List CrosswalkEntry)
  | [] => some []
  | r :: rs =>
    match mkEntry r with
    | none => none
    | some e =>
      match buildMapping rs with
      | none => none
      | some es => some (e :: es)

/-- The quality-statistics dictionary of `create_crosswalk`. -/
structure CrosswalkStats where
  totalRecords : Nat
  semanticMatches : Nat
  prefixMatches : Nat
  divisionMatches : Nat
  lowMatches : Nat
  noMatches : Nat
  nco2004Coverage : Nat
deriving DecidableEq

/-- The statistics computed over the produced mapping. -/
def crosswalkStats (mapping : List CrosswalkEntry) : CrosswalkStats where
  totalRecords := mapping.length
  semanticMatches := mapping.countP (fun m => decide (90 ≤ m.matchScore))
  prefixMatches := mapping.countP (fun m => decide (80 ≤ m.matchScore) && decide (m.matchScore < 90))
  divisionMatches := mapping.countP (fun m => decide (60 ≤ m.matchScore) && decide (m.matchScore < 80))
  lowMatches := mapping.countP (fun m => decide (0 < m.matchScore) && decide (m.matchScore < 60))
  noMatches := mapping.countP (fun m => decide (m.matchScore = 0))
  nco2004Coverage := mapping.countP (fun m => !m.nco2004.isEmpty)

/-- `create_crosswalk` without its PDF/CSV I/O: the mapping plus its
statistics. -/
def create_crosswalk (nco_records : List NCORecord) :
    Option (List CrosswalkEntry × CrosswalkStats) :=
  (buildMapping nco_records).map (fun m => (m, crosswalkStats m))

/-- Each natural-number score falls in exactly one of the five
buckets. -/
theorem bucket_one (s : Nat) :
    ((if (decide (90 ≤ s)) = true then 1 else 0) : Nat) +
    (if (decide (80 ≤ s) && decide (s < 90)) = true then 1 else 0) +
    (if (decide (60 ≤ s) && decide (s < 80)) = true then 1 else 0) +
    (if (decide (0 < s) && decide (s < 60)) = true then 1 else 0) +
    (if (decide (s = 0)) = true then 1 else 0) = 1 := by
  split_ifs with h1 h2 h3 h4 h5 <;>
    simp only [Bool.and_eq_true, decide_eq_true_eq] at * <;> omega

/-- The five bucket counts always sum to the number of entries. -/
theorem stats_partition (es : List CrosswalkEntry) :
    es.countP (fun m => decide (90 ≤ m.matchScore)) +
    es.countP (fun m => decide (80 ≤ m.matchScore) && decide (m.matchScore < 90)) +
    es.countP (fun m => decide (60 ≤ m.matchScore) && decide (m.matchScore < 80)) +
    es.countP (fun m => decide (0 < m.matchScore) && decide (m.matchScore < 60)) +
    es.countP (fun m => decide (m.matchScore = 0)) = es.length := by
  induction es with
  | nil => rfl
  | cons e t ih =>
      simp only [List.countP_cons, List.length_cons]
      have hb := bucket_one e.matchScore
      omega

set_option maxRecDepth 10000 in
/-- Inversion of one loop step of `buildMapping`. -/
theorem buildMapping_cons (r : NCORecord) (rs : List NCORecord)
    (es : List CrosswalkEntry) (h : buildMapping (r :: rs) = some es) :
    ∃ e es', mkEntry r = some e ∧ buildMapping rs = some es' ∧ es = e :: es' := by
  rw [buildMapping] at h
  cases hm : mkEntry r with
  | none =>
      simp only [hm] at h
      exact Option.noConfusion h
  | some e =>
      simp only [hm] at h
      cases hb : buildMapping rs with
      | none =>
          simp only [hb] at h
          exact Option.noConfusion h
      | some es' =>
          simp only [hb] at h
          injection h with h
          exact ⟨e, es', rfl, rfl, h.symm⟩

/-- One row is produced per source record. -/
theorem buildMapping_length : ∀ (rs : List NCORecord) (es : List CrosswalkEntry),
    buildMapping rs = some es → es.length = rs.length := by
  intro rs
  induction rs with
  | nil =>
      intro es h
      rw [buildMapping] at h
      injection h with h
      rw [← h]
      rfl
  | cons r rs ih =>
      intro es h
      obtain ⟨e, es', hm, hb, rfl⟩ := buildMapping_cons r rs es h
      simpa using ih es' hb

/-- The row at each position is built from the record at the same
position. -/
theorem buildMapping_get : ∀ (rs : List NCORecord) (es : List CrosswalkEntry),
    buildMapping rs = some es → ∀ i (hi : i < rs.length) (hi2 : i < es.length),
      mkEntry (rs.get ⟨i, hi⟩) = some (es.get ⟨i, hi2⟩) := by
  intro rs
  induction rs with
  | nil => intro es h i hi hi2; exact absurd hi (Nat.not_lt_zero i)
  | cons r rs ih =>
      intro es h i hi hi2
      obtain ⟨e, es', hm, hb, rfl⟩ := buildMapping_cons r rs es h
      cases i with
      | zero => exact hm
      | succ n => exact ih es' hb n (Nat.lt_of_succ_lt_succ hi) (Nat.lt_of_succ_lt_succ hi2)

/-- C8: the assembler produces one entry per source record, in input
order, and the five score buckets (≥90, 80–89, 60–79, 1–59, 0)
partition the entries, so their counts sum to the total. -/
theorem C8_stats_partition (rs : List NCORecord) (es : List CrosswalkEntry)
    (h : buildMapping rs = some es) :
    es.length = rs.length ∧
    ((crosswalkStats es).semanticMatches + (crosswalkStats es).prefixMatches +
      (crosswalkStats es).divisionMatches + (crosswalkStats es).lowMatches +
      (crosswalkStats es).noMatches = (crosswalkStats es).totalRecords) ∧
    ∀ i (hi : i < rs.length) (hi2 : i < es.length),
      mkEntry (rs.get ⟨i, hi⟩) = some (es.get ⟨i, hi2⟩) :=
  ⟨buildMapping_length rs es h, stats_partition es, buildMapping_get rs es h⟩

set_option maxRecDepth 1000000 in
/-- C8 witness: a two-record run (a keyword match and a
division-fallback match); bucket counts 1+0+1+0+0 = 2. -/
theorem C8_stats_partition_witness :
    buildMapping
        [⟨str2l "1111.0001", str2l "Senior Advocate", str2l "1111.01"⟩,
         ⟨str2l "9999.0001", str2l "Unrecognized Title", []⟩] =
      some
        [⟨str2l "1111.0001", str2l "1111.01", str2l "Senior Advocate",
          str2l "23-1011.00", str2l "Lawyers", 95⟩,
         ⟨str2l "9999.0001", [], str2l "Unrecognized Title",
          str2l "53-7199.00", str2l "Material Moving Workers, All Other", 60⟩] ∧
    ([⟨str2l "1111.0001", str2l "1111.01", str2l "Senior Advocate",
       str2l "23-1011.00", str2l "Lawyers", 95⟩,
      ⟨str2l "9999.0001", [], str2l "Unrecognized Title",
       str2l "53-7199.00", str2l "Material Moving Workers, All Other", 60⟩] :
        List CrosswalkEntry).length =
      ([⟨str2l "1111.0001", str2l "Senior Advocate", str2l "1111.01"⟩,
        ⟨str2l "9999.0001", str2l "Unrecognized Title", []⟩] : List NCORecord).length :=
  ⟨by decide,
   (C8_stats_partition
      [⟨str2l "1111.0001", str2l "Senior Advocate", str2l "1111.01"⟩,
       ⟨str2l "9999.0001", str2l "Unrecognized Title", []⟩]
      [⟨str2l "1111.0001", str2l "1111.01", str2l "Senior Advocate",
        str2l "23-1011.00", str2l "Lawyers", 95⟩,
       ⟨str2l "9999.0001", [], str2l "Unrecognized Title",
        str2l "53-7199.00", str2l "Material Moving Workers, All Other", 60⟩]
      (by decide)).1⟩
